import Mathlib

/-!
Verification development for the `equilibrium-sql-multiagent` repository.

The Python sources are shallowly embedded: pure string manipulation becomes
Lean functions on `String`/`List Char`; calls to external services (the
language model, the embedding services, the vector databases, BigQuery) are
modelled as explicit oracle parameters describing the outcome of each call;
Python dictionaries whose key set varies between branches become structures
with `Option` fields (`none` = key absent); JSON serialisation between a tool
and its caller is modelled as the identity on the structured payload.
Similarity scores (Python floats) are modelled as rationals; embedding
vectors are modelled as lists whose element values are never inspected.
-/

namespace Esma

/-! ## Python string primitives -/

/-- Python `str.upper()` (ASCII case mapping; the sources only compare ASCII
SQL keywords). -/
def pyUpper (s : String) : String := ⟨s.data.map Char.toUpper⟩

/-- Python `str.lower()`. -/
def pyLower (s : String) : String := ⟨s.data.map Char.toLower⟩

/-- Contiguous-sublist test on character lists (scan every start position). -/
def listInfix (needle : List Char) : List Char → Bool
  | [] => needle.isEmpty
  | c :: rest => needle.isPrefixOf (c :: rest) || listInfix needle rest

/-- Python `needle in haystack` on strings (substring containment). -/
def pyIn (needle haystack : String) : Bool := listInfix needle.data haystack.data

/-- Python `str.strip()` with no argument (strip whitespace from both ends). -/
def pyStrip (s : String) : String :=
  ⟨((s.data.dropWhile Char.isWhitespace).reverse.dropWhile Char.isWhitespace).reverse⟩

/-- Python `str.rstrip(';')` (drop every trailing semicolon). -/
def pyRstripSemi (s : String) : String :=
  ⟨(s.data.reverse.dropWhile (fun c => c = ';')).reverse⟩

/-- Python `s[:n]` (truncate to the first `n` characters). -/
def pyTake (n : Nat) (s : String) : String := ⟨s.data.take n⟩

/-! ## Regex word-boundary matching

`re.search(r"\bOP\b", text)` for an alphabetic keyword `OP`: the keyword
occurs in `text` at a position whose neighbours on both sides are not word
characters. Word characters follow the regex class `\w` read over ASCII
(letters, digits, underscore). -/

def isWordChar (c : Char) : Bool := c.isAlphanum || c = '_'

/-- The character (if any) standing right before a candidate match is not a
word character. -/
def boundaryBefore (prev : Option Char) : Bool :=
  match prev with
  | none => true
  | some c => !isWordChar c

/-- The character (if any) standing right after a candidate match is not a
word character. -/
def boundaryAfter (w l : List Char) : Bool :=
  match l.drop w.length with
  | [] => true
  | c :: _ => !isWordChar c

/-- Scan `l` for an occurrence of the word `w` flanked by word boundaries;
`prev` is the character standing just before the current position. -/
def scanWholeWord (w : List Char) (prev : Option Char) : List Char → Bool
  | [] => false
  | c :: rest =>
    (w.isPrefixOf (c :: rest) && boundaryBefore prev && boundaryAfter w (c :: rest))
      || scanWholeWord w (some c) rest

/-- `re.search(r"\b" + w + r"\b", s)` succeeds. -/
def containsWholeWord (w s : String) : Bool := scanWholeWord w.data none s.data

/-! ## Settings (`esma/config/settings.py`, class `Settings` defaults) -/

def settings_sql_result_limit : Nat := 500
def settings_max_retries : Nat := 3
def settings_similarity_threshold : Rat := 1/4

def settings_pc_indexes : List (String × String) :=
  [("enaho", "enaho-2024"), ("geih", "geih-2024")]

def settings_vertex_api_endpoint : List (String × String) :=
  [("enaho", "1799297254.us-east1-514700908055.vdb.vertexai.goog"),
   ("geih", "2141955479.us-east1-514700908055.vdb.vertexai.goog")]

def settings_vertex_index_endpoints : List (String × String) :=
  [("enaho", "projects/514700908055/locations/us-east1/indexEndpoints/3366058091412979712"),
   ("geih", "projects/514700908055/locations/us-east1/indexEndpoints/5723692496341434368")]

def settings_vertex_deployed_indexes : List (String × String) :=
  [("enaho", "enaho_2024_columns_dp"), ("geih", "geih_2024_columns_dp")]

/-! ## BigQuery client model (`esma/utils/bigquery_client.py`)

The live warehouse is external; a `BQClientModel` records the outcome of its
two introspection surfaces used by the tools under verification:
`get_usable_table_names()` (which may raise — `usable_tables = none`) and
`db.run` of a dry-run statement (`dry_run_error sql = some msg` models the
raised exception's message, `none` models success). -/

structure BQClientModel where
  usable_tables : Option (List String)
  dry_run_error : String → Option String

/-- `BigQueryClient.validate_tables_exist`: a dict mapping each requested
table name to membership in the live usable-table list; if introspection
raises, every requested table maps to `False`. The Python dict is modelled as
an association list (duplicate names collapse under `List.lookup` exactly as
duplicate dict keys collapse, since equal keys receive equal values). -/
def validate_tables_exist (client : BQClientModel) (table_names : List String) :
    List (String × Bool) :=
  match client.usable_tables with
  | some existing_tables => table_names.map (fun t => (t, existing_tables.contains t))
  | none => table_names.map (fun t => (t, false))

/-! ## Schema validator (`esma/tools/schema_validator.py`) -/

def FORBIDDEN_OPERATIONS : List String :=
  ["INSERT", "UPDATE", "DELETE", "DROP", "ALTER", "TRUNCATE", "CREATE", "REPLACE"]

/-- `SchemaValidator._check_forbidden_operations`: first forbidden keyword
matching as a whole word in the uppercased query, rendered as the error
message; `none` models the `{"valid": True}` return. -/
def check_forbidden_operations (sql_query : String) : Option String :=
  (FORBIDDEN_OPERATIONS.find? (fun operation => containsWholeWord operation (pyUpper sql_query))).map
    (fun operation => "Forbidden operation: " ++ operation ++ ". Only SELECT queries are allowed.")

/-- Case-insensitive literal match of `kw` against a prefix of `l`; returns
the remainder after the keyword. -/
def matchKeywordCI (kw : List Char) (l : List Char) : Option (List Char) :=
  match kw, l with
  | [], rest => some rest
  | _ :: _, [] => none
  | k :: ks, c :: cs => if c.toUpper = k.toUpper then matchKeywordCI ks cs else none

/-- Characters of the identifier class `[a-zA-Z0-9_\-]`. -/
def isIdentChar (c : Char) : Bool := c.isAlphanum || c = '_' || c = '-'

/-- One step of `re.findall(kw + r"\s+([a-zA-Z0-9_\-]+)", text, re.IGNORECASE)`:
left-to-right scan, non-overlapping matches, resuming after each match. The
structural fuel is bounded by the text length, which every recursive call
strictly decreases, so `findTableRefs` below never exhausts it. -/
def findTableRefsAux (kw : List Char) : Nat → List Char → List String
  | 0, _ => []
  | _ + 1, [] => []
  | fuel + 1, c :: rest =>
    match matchKeywordCI kw (c :: rest) with
    | some afterKw =>
      let ws := afterKw.takeWhile Char.isWhitespace
      if ws.isEmpty then findTableRefsAux kw fuel rest
      else
        let afterWs := afterKw.dropWhile Char.isWhitespace
        let ident := afterWs.takeWhile isIdentChar
        if ident.isEmpty then findTableRefsAux kw fuel rest
        else String.mk ident :: findTableRefsAux kw fuel (afterWs.drop ident.length)
    | none => findTableRefsAux kw fuel rest

def findTableRefs (kw : List Char) (l : List Char) : List String :=
  findTableRefsAux kw l.length l

/-- `SchemaValidator._extract_tables`: table names after `FROM` and `JOIN`,
concatenated and de-duplicated (`list(set(...))`; the set's iteration order is
unspecified in Python, modelled as first-occurrence order). -/
def extract_tables (sql_query : String) : List String :=
  (findTableRefs "FROM".data sql_query.data ++ findTableRefs "JOIN".data sql_query.data).dedup

/-- `SchemaValidator._validate_tables`. -/
def validator_validate_tables (client : BQClientModel) (table_names : List String) :
    List (String × Bool) :=
  if table_names.isEmpty then [] else validate_tables_exist client table_names

structure StructureValidation where
  valid : Bool
  errors : List String
  warnings : List String
deriving DecidableEq, Repr

/-- `SchemaValidator._validate_query_structure`: wrap the candidate query as a
dry run and classify the raised error message by substring heuristics. -/
def validate_query_structure (client : BQClientModel) (sql_query : String) :
    StructureValidation :=
  let dry_run_query := "SELECT * FROM (" ++ sql_query ++ ") AS validation_check LIMIT 0"
  match client.dry_run_error dry_run_query with
  | none => ⟨true, [], []⟩
  | some error_msg =>
    if ["not found", "does not exist", "unrecognized name",
        "name not found", "invalid field", "no such field"].any
         (fun phrase => pyIn phrase (pyLower error_msg)) then
      ⟨false, ["Column validation failed: " ++ error_msg], []⟩
    else if pyIn "syntax error" (pyLower error_msg) then
      ⟨false, ["SQL syntax error: " ++ error_msg], []⟩
    else
      ⟨false, ["Query validation failed: " ++ error_msg], []⟩

/-- The JSON payload returned by `SchemaValidator._run`. The forbidden-branch
response carries no `tables_checked`/`table_validation` keys (`none`). -/
structure ValidationPayload where
  valid : Bool
  errors : List String
  warnings : List String
  tables_checked : Option (List String)
  table_validation : Option (List (String × Bool))
deriving DecidableEq, Repr

/-- Result of `SchemaValidator._run` together with whether the warehouse
client was consulted at all (table-existence or dry-run phases). -/
structure ValidatorRunOutput where
  payload : ValidationPayload
  client_consulted : Bool
deriving DecidableEq, Repr

/-- `SchemaValidator._run`. -/
def schemaValidator_run (client : BQClientModel) (sql_query : String) : ValidatorRunOutput :=
  match check_forbidden_operations sql_query with
  | some err => ⟨⟨false, [err], [], none, none⟩, false⟩
  | none =>
    let tables := extract_tables sql_query
    let table_validation := validator_validate_tables client tables
    let invalid_tables := (table_validation.filter (fun p => !p.2)).map (fun p => p.1)
    let errors0 : List String :=
      if invalid_tables.isEmpty then []
      else ["Tables not found: " ++ String.intercalate ", " invalid_tables]
    let ev : List String × List String :=
      if errors0.isEmpty then
        let sv := validate_query_structure client sql_query
        if !sv.valid then (errors0 ++ sv.errors, sv.warnings) else (errors0, [])
      else (errors0, [])
    ⟨⟨ev.1.isEmpty, ev.1, ev.2,
      some (table_validation.map (fun p => p.1)), some table_validation⟩, true⟩

/-! ## SQL executor (`esma/tools/sql_executor.py`) -/

/-- `SQLExecutor._classify_error`. -/
def classify_error (error_msg : String) : String :=
  let error_lower := pyLower error_msg
  if pyIn "timeout" error_lower then "TIMEOUT"
  else if pyIn "permission" error_lower || pyIn "access denied" error_lower then
    "PERMISSION_ERROR"
  else if pyIn "quota" error_lower || pyIn "rate limit" error_lower then "QUOTA_EXCEEDED"
  else if pyIn "connection" error_lower || pyIn "network" error_lower then "CONNECTION_ERROR"
  else if pyIn "syntax" error_lower then "SYNTAX_ERROR"
  else if pyIn "not found" error_lower || pyIn "does not exist" error_lower then
    "RESOURCE_NOT_FOUND"
  else "EXECUTION_ERROR"

/-- Row-limit injection as written inline in `BaseSQLAgent.generate_sql`:
append a trailing limit clause unless the uppercased SQL already mentions
`LIMIT`. -/
def injectLimitAgent (limit : Nat) (sql : String) : String :=
  if !(pyIn "LIMIT" (pyUpper sql)) then
    pyRstripSemi sql ++ " LIMIT " ++ toString limit ++ ";"
  else sql

/-- Row-limit injection in `BigQueryClient.execute_query`: identical to the
agent's, additionally guarded by the truthiness of `sql_result_limit`. -/
def clientInjectLimit (limit : Nat) (sql : String) : String :=
  if limit ≠ 0 && !(pyIn "LIMIT" (pyUpper sql)) then
    pyRstripSemi sql ++ " LIMIT " ++ toString limit ++ ";"
  else sql

/-- `BigQueryClient.execute_query`: inject the configured row limit, then run
the statement; `run_oracle` models `self.db.run` (`.error msg` = exception). -/
def client_execute_query (run_oracle : String → Except String String) (sql : String) :
    Except String String :=
  run_oracle (clientInjectLimit settings_sql_result_limit sql)

/-- The JSON payload returned by `SQLExecutor._run`; keys absent from a given
branch are `none`. -/
structure ExecEnvelope where
  success : Bool
  error : Option String
  error_type : Option String
  results : Option String
  database : Option String
  query_executed : Option String
  query_attempted : Option String
deriving DecidableEq, Repr

/-- `SQLExecutor._run`. -/
def sqlExecutor_run (run_oracle : String → Except String String)
    (sql_query database : String) : ExecEnvelope :=
  if pyStrip sql_query = "" then
    { success := false, error := some "SQL query cannot be empty", error_type := none,
      results := none, database := none, query_executed := none, query_attempted := none }
  else
    match client_execute_query run_oracle sql_query with
    | .ok results =>
      { success := true, error := none, error_type := none, results := some results,
        database := some database, query_executed := some sql_query, query_attempted := none }
    | .error e =>
      { success := false, error := some e, error_type := some (classify_error e),
        results := none, database := some database, query_executed := none,
        query_attempted := some sql_query }

/-! ## Column retrievers (`esma/tools/column_retriever.py` and
`esma/tools/column_retriever_vertexai.py`)

External calls are modelled by a `CallOutcome`: `raised msg` is an exception
escaping into the surrounding `try`, `returned v` a normal return. Inside
`_generate_embedding` every exception is already caught and turned into
`None`, modelled as `returned none`. -/

inductive CallOutcome (α : Type) where
  | raised (msg : String)
  | returned (v : α)
deriving Repr

/-- Embedding vectors: the element values are never inspected by the code
under verification, only the truthiness of the vector. -/
abbrev Embedding := List Int

/-- Metadata payload of a Pinecone match ( `valid_values` legend as an
association list; `none` fields model absent keys). -/
structure PineconeMetadata where
  table_id : Option String
  column_name : Option String
  description : Option String
  data_type : Option String
  business_meaning : Option String
  valid_values : Option (List (String × String))
deriving DecidableEq, Repr

/-- One Pinecone search match: optional similarity score (`.get('score', 0)`)
and optional metadata dict. -/
structure PineconeMatch where
  score : Option Rat
  metadata : Option PineconeMetadata
deriving DecidableEq, Repr

/-- Column-metadata record built by the Pinecone variant. -/
structure ColumnInfo where
  table_id : Option String
  column_name : Option String
  description : Option String
  data_type : Option String
  business_meaning : Option String
  valid_values : List (String × String)
  similarity_score : Option Rat
deriving DecidableEq, Repr

def columnInfoOfMatch (md : PineconeMetadata) (score : Option Rat) : ColumnInfo :=
  { table_id := md.table_id, column_name := md.column_name,
    description := md.description, data_type := md.data_type,
    business_meaning := md.business_meaning,
    valid_values := md.valid_values.getD [], similarity_score := score }

/-- The uniform success/columns/error envelope both retriever variants return. -/
structure RetrieverEnvelope (α : Type) where
  success : Bool
  columns : List α
  error : Option String
deriving DecidableEq, Repr

/-- A structured failure envelope: unsuccessful, no columns, an explanatory
error string present. -/
def failureEnvelope {α : Type} (e : RetrieverEnvelope α) : Prop :=
  e.success = false ∧ e.columns = [] ∧ e.error.isSome = true

/-- Oracles for one `ColumnRetriever._run` call of the Pinecone variant. -/
structure PineconeEnv where
  embed : CallOutcome (Option Embedding)
  search : CallOutcome (List PineconeMatch)

/-- Output of the Pinecone `ColumnRetriever._run`, instrumented with whether
the embedding service and the vector search were actually invoked. -/
structure ColumnRetrieverAOutput where
  out : RetrieverEnvelope ColumnInfo
  embed_called : Bool
  search_called : Bool

/-- `ColumnRetriever._run` (Pinecone/VoyageAI variant). -/
def columnRetrieverA_run (env : PineconeEnv) (query : String) (_database : String)
    (selected_tables : List String) : ColumnRetrieverAOutput :=
  if pyStrip query = "" then
    ⟨⟨false, [], some "Query cannot be empty"⟩, false, false⟩
  else if selected_tables.isEmpty then
    ⟨⟨false, [], some "At least one table must be selected"⟩, false, false⟩
  else
    match env.embed with
    | .raised msg =>
      ⟨⟨false, [], some ("Embedding generation failed: " ++ msg)⟩, true, false⟩
    | .returned none => ⟨⟨false, [], some "Empty query embedding"⟩, true, false⟩
    | .returned (some query_embedding) =>
      if query_embedding.isEmpty then
        ⟨⟨false, [], some "Empty query embedding"⟩, true, false⟩
      else
        match env.search with
        | .raised msg =>
          ⟨⟨false, [], some ("Pinecone search failed: " ++ msg)⟩, true, true⟩
        | .returned search_results =>
          let filtered_columns := search_results.filter
            (fun r => settings_similarity_threshold ≤ r.score.getD 0)
          let columns := filtered_columns.filterMap
            (fun r => r.metadata.map (fun md => columnInfoOfMatch md r.score))
          ⟨⟨true, columns, none⟩, true, true⟩

/-- A VertexAI nearest neighbour: the `embedding_metadata` mapping. -/
structure VertexNeighbor where
  metadata : List (String × String)
deriving DecidableEq, Repr

/-- Column record built by the VertexAI variant. -/
structure ColumnInfoB where
  table_id : Option String
  column_name : Option String
  description : Option String
  data_type : Option String
deriving DecidableEq, Repr

/-- Oracles for one `ColumnRetriever._run` call of the VertexAI variant. -/
structure VertexEnv where
  embed : CallOutcome (Option Embedding)
  search : CallOutcome (List VertexNeighbor)

structure ColumnRetrieverBOutput where
  out : RetrieverEnvelope ColumnInfoB
  embed_called : Bool
  search_called : Bool

/-- Python truthiness of an optional string as tested by
`if not all([...])`. -/
def truthyOptStr (o : Option String) : Bool :=
  match o with
  | none => false
  | some s => !(s = "")

/-- `ColumnRetriever._run` (VertexAI variant). -/
def columnRetrieverB_run (env : VertexEnv) (query : String) (database : String)
    (selected_tables : List String) : ColumnRetrieverBOutput :=
  let api_endpoint := settings_vertex_api_endpoint.lookup database
  let index_endpoint := settings_vertex_index_endpoints.lookup database
  let deployed_index_id := settings_vertex_deployed_indexes.lookup database
  if !(truthyOptStr api_endpoint && truthyOptStr index_endpoint
      && truthyOptStr deployed_index_id) then
    ⟨⟨false, [], some ("Index configuration not found for database: " ++ database)⟩,
      false, false⟩
  else if pyStrip query = "" then
    ⟨⟨false, [], some "Query cannot be empty"⟩, false, false⟩
  else if selected_tables.isEmpty then
    ⟨⟨false, [], some "At least one table must be selected"⟩, false, false⟩
  else
    match env.embed with
    | .raised msg =>
      ⟨⟨false, [], some ("Embedding generation failed: " ++ msg)⟩, true, false⟩
    | .returned none => ⟨⟨false, [], some "Failed to generate embedding"⟩, true, false⟩
    | .returned (some query_embedding) =>
      if query_embedding.isEmpty then
        ⟨⟨false, [], some "Failed to generate embedding"⟩, true, false⟩
      else
        match env.search with
        | .raised msg =>
          ⟨⟨false, [], some ("Vector search failed: " ++ msg)⟩, true, true⟩
        | .returned search_results =>
          let columns := search_results.map (fun n =>
            ColumnInfoB.mk (n.metadata.lookup "table_id") (n.metadata.lookup "column_name")
              (n.metadata.lookup "text") (n.metadata.lookup "data_type"))
          ⟨⟨true, columns, none⟩, true, true⟩

/-! ## Methodology retriever (`esma/tools/methodology_retriever.py`) -/

/-- One Pinecone documentation match. -/
structure DocMatch where
  id : Option String
  score : Option Rat
  metadata : List (String × String)
deriving DecidableEq, Repr

/-- A documentation chunk record. -/
structure DocChunk where
  chunk_id : Option String
  content : String
  source : String
  page_number : Option String
  doc_section : Option String
  similarity_score : Option Rat
deriving DecidableEq, Repr

/-- Response payload of `MethodologyRetriever._run`; keys absent from a given
branch are `none` (`warning` is only attached when no chunk clears the
similarity floor). -/
structure MethodologyResponse where
  success : Bool
  database : Option String
  query : Option String
  chunks_retrieved : Option Nat
  chunks : List DocChunk
  error : Option String
  warning : Option String
deriving DecidableEq, Repr

structure MethodologyEnv where
  embed : CallOutcome (Option Embedding)
  search : CallOutcome (List DocMatch)

/-- `MethodologyRetriever._run`. -/
def methodologyRetriever_run (env : MethodologyEnv) (query database : String) :
    MethodologyResponse :=
  if pyStrip query = "" then
    ⟨false, none, none, none, [], some "Query cannot be empty", none⟩
  else
    match env.embed with
    | .raised msg =>
      ⟨false, none, none, none, [], some ("Embedding generation failed: " ++ msg), none⟩
    | .returned none =>
      ⟨false, none, none, none, [], some "Failed to generate embedding for query", none⟩
    | .returned (some query_embedding) =>
      if query_embedding.isEmpty then
        ⟨false, none, none, none, [], some "Failed to generate embedding for query", none⟩
      else
        match env.search with
        | .raised msg =>
          ⟨false, none, none, none, [], some ("Documentation search failed: " ++ msg), none⟩
        | .returned search_results =>
          let filtered_chunks := search_results.filter
            (fun r => settings_similarity_threshold ≤ r.score.getD 0)
          let documentation_chunks := filtered_chunks.map (fun r =>
            DocChunk.mk r.id (r.metadata.lookup "text" |>.getD "")
              (r.metadata.lookup "source" |>.getD "") (r.metadata.lookup "page")
              (r.metadata.lookup "section") r.score)
          { success := true, database := some database, query := some query,
            chunks_retrieved := some documentation_chunks.length,
            chunks := documentation_chunks, error := none,
            warning :=
              if documentation_chunks.isEmpty then
                some ("No documentation chunks found with similarity >= 1/4. "
                  ++ "Consider rephrasing the query or checking if this topic is covered in the documentation.")
              else none }

/-! ## Prompt loader (`esma/prompts/prompt_loader.py`) -/

/-- `PromptLoader.__init__`: an empty database name is rejected with a
`ValueError`, otherwise the name is stored. -/
def promptLoader_init (database : String) : Except String String :=
  if database = "" then .error "Database parameter cannot be empty" else .ok database

/-- The only failure a table-description load can produce. -/
inductive LoadFailure where
  | fileNotFound (path : String)
deriving DecidableEq, Repr

/-- Modelled from the spec: the table-description markdown file follows the
per-database naming convention of section 4.3 (the system-prompt analogue in
the source is named by convention from the database short name). -/
def table_descriptions_file (database : String) : String :=
  database ++ "_tables.md"

/-- Modelled from the spec: `PromptLoader.load_table_descriptions` is invoked
by `BaseSQLAgent.select_tables` and `TableDescriptionRetriever._run` (both of
which catch `FileNotFoundError`), but its definition is absent from the
source tree under `src/`. Per spec section 4.3 it returns the
table-description file's contents as text and fails with a missing-resource
(file-not-found) error exactly when the expected file is absent. `fs` models
the file system (contents by path). -/
def load_table_descriptions (fs : String → Option String) (database : String) :
    Except LoadFailure String :=
  match fs (table_descriptions_file database) with
  | some contents => .ok contents
  | none => .error (.fileNotFound (table_descriptions_file database))

/-! ## Linear agent (`esma/agents/baseLinear.py` over
`esma/memory/state_models.py`)

Messages are modelled by their content strings. Every language-model call is
an oracle in a `PassEnv`; one `PassEnv` describes one pipeline pass, and the
whole run is driven by a family `Nat → PassEnv` indexed by the pass's retry
count (the external world may answer differently on every pass). -/

structure ValidationResult where
  valid : Bool
  errors : List String
  warnings : List String
  tables_checked : List String
  table_validation : List (String × Bool)
deriving DecidableEq, Repr

structure VSMetadata where
  count : Nat
  tables_searched : List String
  database : String
deriving DecidableEq, Repr

/-- `BaseSQLState` (pydantic defaults: empty lists, absent optionals,
`retry_count = 0`; the empty `vector_search_metadata` dict is `none`). -/
structure BaseSQLState where
  messages : List String
  conversation_id : Option String := none
  query : String := ""
  selected_tables : List String := []
  retrieved_columns : List ColumnInfo := []
  vector_search_metadata : Option VSMetadata := none
  generated_sql : Option String := none
  sql_validation_result : Option ValidationResult := none
  query_results : Option ExecEnvelope := none
  tools_executed : List String := []
  final_answer : Option String := none
  error : Option String := none
  retry_count : Nat := 0
deriving Repr

/-- Outcome of one table-selection attempt (`llm.invoke` plus markdown
stripping plus `json.loads`): `invokeError` = the model call raised (no tool
audit entry is appended), `parseFailure` = the call returned but content
processing or JSON decoding raised (the audit entry was already appended),
`jsonList` = a JSON list was parsed, `jsonOther` = valid JSON of another
shape. -/
inductive SelectOutcome where
  | invokeError
  | parseFailure
  | jsonList (tables : List String)
  | jsonOther

/-- Oracles consumed by one pipeline pass. -/
structure PassEnv where
  table_descriptions : Option String
  select_llm : Nat → SelectOutcome
  pinecone : PineconeEnv
  sql_llm : Nat → Option String
  client : BQClientModel
  run_sql : String → Except String String
  format_llm : Option String

/-- The `for attempt in range(max_retries)` loop of
`BaseSQLAgent.select_tables`; `remaining` counts the iterations left
(`attempt + remaining = max_retries` at the initial call). -/
def selectLoop (outcome : Nat → SelectOutcome) (maxR : Nat) :
    Nat → Nat → BaseSQLState → BaseSQLState
  | _, 0, s => s
  | attempt, remaining + 1, s =>
    match outcome attempt with
    | .invokeError =>
      let s' := if attempt = maxR - 1 then
          { s with error := some "Could not determine relevant tables after multiple attempts" }
        else s
      selectLoop outcome maxR (attempt + 1) remaining s'
    | .parseFailure =>
      let s1 := { s with tools_executed := s.tools_executed ++ ["table_selection"] }
      let s' := if attempt = maxR - 1 then
          { s1 with error := some "Could not determine relevant tables after multiple attempts" }
        else s1
      selectLoop outcome maxR (attempt + 1) remaining s'
    | .jsonList tables =>
      let s1 := { s with tools_executed := s.tools_executed ++ ["table_selection"] }
      if !tables.isEmpty then { s1 with selected_tables := tables }
      else { s1 with error := some "No relevant tables found for this query in the database" }
    | .jsonOther =>
      let s1 := { s with tools_executed := s.tools_executed ++ ["table_selection"] }
      { s1 with error := some "Invalid table selection format" }

/-- `BaseSQLAgent.select_tables`. The source reads `state.messages[-1]`,
raising on an empty history; runs under verification carry a non-empty
history (hypothesis in every theorem touching this node), so the `none`
branch below is inert. -/
def select_tables (env : PassEnv) (maxR : Nat) (s : BaseSQLState) : BaseSQLState :=
  match s.messages.getLast? with
  | none => s
  | some last_message =>
    let s := { s with query := last_message }
    match env.table_descriptions with
    | none => { s with error := some "Table descriptions configuration error" }
    | some _ => selectLoop env.select_llm maxR 0 maxR s

/-- `BaseSQLAgent.retrieve_columns`. The tool's JSON payload is consumed
structurally; `result.get("error", ...)` on the success-but-empty envelope
finds the key bound to JSON null, which the f-string renders as "None". -/
def retrieve_columns (env : PassEnv) (db : String) (s : BaseSQLState) : BaseSQLState :=
  if s.error.isSome || s.selected_tables.isEmpty then s
  else
    let result := (columnRetrieverA_run env.pinecone s.query db s.selected_tables).out
    let s1 := { s with tools_executed := s.tools_executed ++ ["column_retrieval"] }
    if result.success && !result.columns.isEmpty then
      { s1 with retrieved_columns := result.columns,
                vector_search_metadata := some ⟨result.columns.length, s.selected_tables, db⟩ }
    else
      let error_msg := match result.error with | some e => e | none => "None"
      { s1 with error := some ("Column retrieval failed: " ++ error_msg) }

/-- The `for attempt in range(max_retries)` loop of
`BaseSQLAgent.generate_sql`; the oracle yields `none` when `llm.invoke`
raised and `some content` otherwise. Exhausting the loop sets the terminal
error, as the line following the loop does in the source. -/
def genLoop (outcome : Nat → Option String) (limit : Nat) :
    Nat → Nat → BaseSQLState → BaseSQLState
  | _, 0, s => { s with error := some "Failed to generate valid SQL query" }
  | attempt, remaining + 1, s =>
    match outcome attempt with
    | none => genLoop outcome limit (attempt + 1) remaining s
    | some sql =>
      if !(sql = "") then
        { s with generated_sql := some (injectLimitAgent limit sql),
                 tools_executed := s.tools_executed ++ ["sql_generation"] }
      else genLoop outcome limit (attempt + 1) remaining s

/-- `BaseSQLAgent.generate_sql`. -/
def generate_sql (env : PassEnv) (limit maxR : Nat) (s : BaseSQLState) : BaseSQLState :=
  if s.error.isSome || s.retrieved_columns.isEmpty then s
  else genLoop env.sql_llm limit 0 maxR s

def validationResultOfPayload (p : ValidationPayload) : ValidationResult :=
  ⟨p.valid, p.errors, p.warnings, p.tables_checked.getD [], p.table_validation.getD []⟩

/-- `BaseSQLAgent.validate_sql` (`not state.generated_sql` is true for both
an absent and an empty SQL string). -/
def validate_sql (env : PassEnv) (s : BaseSQLState) : BaseSQLState :=
  if s.error.isSome || s.generated_sql.getD "" = "" then s
  else
    let result := (schemaValidator_run env.client (s.generated_sql.getD "")).payload
    let s1 := { s with tools_executed := s.tools_executed ++ ["sql_validation"] }
    let validation := validationResultOfPayload result
    let s2 := { s1 with sql_validation_result := some validation }
    if !validation.valid then
      { s2 with error := some ("SQL validation failed: "
          ++ String.intercalate "; " validation.errors) }
    else s2

/-- `BaseSQLAgent.execute_query`. -/
def agent_execute_query (env : PassEnv) (db : String) (s : BaseSQLState) : BaseSQLState :=
  if s.error.isSome then s
  else
    match s.sql_validation_result with
    | none => s
    | some v =>
      if !v.valid then s
      else
        let result := sqlExecutor_run env.run_sql (s.generated_sql.getD "") db
        let s1 := { s with tools_executed := s.tools_executed ++ ["sql_execution"] }
        if result.success then { s1 with query_results := some result }
        else
          let error_msg := result.error.getD "Unknown execution error"
          let error_type := result.error_type.getD "EXECUTION_ERROR"
          { s1 with error := some ("Query execution failed (" ++ error_type ++ "): "
              ++ pyTake 200 error_msg) }

/-- `BaseSQLAgent.format_answer`. -/
def format_answer (env : PassEnv) (s : BaseSQLState) : BaseSQLState :=
  let s := { s with retry_count := 0 }
  match s.error with
  | some err =>
    { s with final_answer := some ("I encountered an issue while processing your query: " ++ err) }
  | none =>
    let results := match s.query_results with
      | none => none
      | some r => r.results
    if results.getD "" = "" then
      { s with final_answer := some "The query executed successfully but returned no results." }
    else
      match env.format_llm with
      | some answer =>
        { s with final_answer := some answer,
                 tools_executed := s.tools_executed ++ ["answer_formatting"] }
      | none =>
        { s with final_answer := some ("Here are the query results:\n\n" ++ results.getD "") }

/-- `BaseSQLAgent.should_retry`: the routing string together with the state
as mutated by the retry branch. -/
def should_retry (maxR : Nat) (s : BaseSQLState) : String × BaseSQLState :=
  if s.error.isNone then ("continue", s)
  else if maxR ≤ s.retry_count then ("continue", s)
  else ("retry", { s with retry_count := s.retry_count + 1, error := none,
                          generated_sql := none, sql_validation_result := none,
                          query_results := none })

/-- One pass through the linear edges of the graph built by
`BaseSQLAgent.create_graph`:
`select_tables → retrieve_columns → generate_sql → validate_sql →
execute_query`. -/
def pipelineOnce (env : Nat → PassEnv) (db : String) (limit maxR : Nat)
    (s : BaseSQLState) : BaseSQLState :=
  let e := env s.retry_count
  agent_execute_query e db (validate_sql e (generate_sql e limit maxR
    (retrieve_columns e db (select_tables e maxR s))))

/-- The compiled graph's execution: run the pipeline, route through
`should_retry` (the `retry` edge re-enters at `select_tables`, the `continue`
edge reaches `format_answer`, which ends the graph). The second component
counts how many times the retry branch was taken. -/
def runLoop (env : Nat → PassEnv) (db : String) (limit maxR : Nat)
    (s : BaseSQLState) : BaseSQLState × Nat :=
  if h : (should_retry maxR (pipelineOnce env db limit maxR s)).1 = "retry" then
    ((runLoop env db limit maxR
        (should_retry maxR (pipelineOnce env db limit maxR s)).2).1,
     (runLoop env db limit maxR
        (should_retry maxR (pipelineOnce env db limit maxR s)).2).2 + 1)
  else
    (format_answer (env (pipelineOnce env db limit maxR s).retry_count)
      (should_retry maxR (pipelineOnce env db limit maxR s)).2, 0)
termination_by maxR + 1 - s.retry_count
decreasing_by
all_goals
  have hsel_loop : ∀ (o : Nat → SelectOutcome) (mR r a : Nat) (st : BaseSQLState),
      (selectLoop o mR a r st).retry_count = st.retry_count := by
    intro o mR r
    induction r with
    | zero => intro a st; rfl
    | succ n ih =>
      intro a st
      cases ho : o a with
      | invokeError => simp only [selectLoop, ho]; rw [ih]; split <;> rfl
      | parseFailure => simp only [selectLoop, ho]; rw [ih]; split <;> rfl
      | jsonList tables => simp only [selectLoop, ho]; split <;> rfl
      | jsonOther => simp only [selectLoop, ho]
  have hgen_loop : ∀ (o : Nat → Option String) (limit r a : Nat) (st : BaseSQLState),
      (genLoop o limit a r st).retry_count = st.retry_count := by
    intro o limit r
    induction r with
    | zero => intro a st; rfl
    | succ n ih =>
      intro a st
      cases ho : o a with
      | none => simp only [genLoop, ho]; rw [ih]
      | some sql =>
        simp only [genLoop, ho]
        split
        · rfl
        · rw [ih]
  have hsel : ∀ (e : PassEnv) (mR : Nat) (st : BaseSQLState),
      (select_tables e mR st).retry_count = st.retry_count := by
    intro e mR st
    simp only [select_tables]
    cases st.messages.getLast? with
    | none => rfl
    | some m =>
      cases e.table_descriptions with
      | none => rfl
      | some td => rw [hsel_loop]
  have hret : ∀ (e : PassEnv) (d : String) (st : BaseSQLState),
      (retrieve_columns e d st).retry_count = st.retry_count := by
    intro e d st
    simp only [retrieve_columns]
    split
    · rfl
    · split <;> rfl
  have hgen : ∀ (e : PassEnv) (l mR : Nat) (st : BaseSQLState),
      (generate_sql e l mR st).retry_count = st.retry_count := by
    intro e l mR st
    simp only [generate_sql]
    split
    · rfl
    · rw [hgen_loop]
  have hval : ∀ (e : PassEnv) (st : BaseSQLState),
      (validate_sql e st).retry_count = st.retry_count := by
    intro e st
    simp only [validate_sql]
    split
    · rfl
    · split <;> rfl
  have hexec : ∀ (e : PassEnv) (d : String) (st : BaseSQLState),
      (agent_execute_query e d st).retry_count = st.retry_count := by
    intro e d st
    simp only [agent_execute_query]
    split
    · rfl
    · split
      · rfl
      · split
        · rfl
        · split <;> rfl
  have hpass : (pipelineOnce env db limit maxR s).retry_count = s.retry_count := by
    simp only [pipelineOnce]
    rw [hexec, hval, hgen, hret, hsel]
  have hcr : ("continue" : String) ≠ "retry" := by decide
  by_cases he : (pipelineOnce env db limit maxR s).error.isNone
  · rw [should_retry, if_pos he] at h
    exact absurd h hcr
  · by_cases hr : maxR ≤ (pipelineOnce env db limit maxR s).retry_count
    · rw [should_retry, if_neg he, if_pos hr] at h
      exact absurd h hcr
    · rw [should_retry, if_neg he, if_neg hr]
      simp only
      rw [hpass] at hr
      omega

/-- Concrete oracle fixture for witnesses: the description file is missing,
every model call raises, and every execution attempt raises. -/
def failingEnv : Nat → PassEnv := fun _ =>
  ⟨none, fun _ => SelectOutcome.invokeError,
    ⟨CallOutcome.returned none, CallOutcome.returned []⟩, fun _ => none,
    ⟨none, fun _ => none⟩, fun _ => Except.error "boom", none⟩

/-- Concrete initial state fixture for witnesses. -/
def witnessState : BaseSQLState := { messages := ["how many households own a house"] }

/-! # Theorems -/

/-! ## Substring and string lemmas -/

theorem listInfix_nil_needle (l : List Char) : listInfix [] l = true := by
  cases l <;> simp [listInfix, List.isPrefixOf]

theorem listInfix_of_isPrefixOf {w l : List Char} (h : w.isPrefixOf l = true) :
    listInfix w l = true := by
  cases l with
  | nil =>
    have hw : w = [] := List.prefix_nil.mp (List.isPrefixOf_iff_prefix.mp h)
    simp [listInfix, hw]
  | cons c rest => simp [listInfix, h]

theorem listInfix_cons {w l : List Char} (c : Char) (h : listInfix w l = true) :
    listInfix w (c :: l) = true := by
  simp [listInfix, h]

theorem listInfix_append_left {w l : List Char} (a : List Char) (h : listInfix w l = true) :
    listInfix w (a ++ l) = true := by
  induction a with
  | nil => simpa
  | cons c cs ih => simpa using listInfix_cons c ih

theorem listInfix_append_right {w : List Char} (b : List Char) :
    ∀ {l : List Char}, listInfix w l = true → listInfix w (l ++ b) = true := by
  intro l
  induction l with
  | nil =>
    intro h
    simp only [listInfix, List.isEmpty_iff] at h
    simpa [h] using listInfix_nil_needle b
  | cons c ls ih =>
    intro h
    simp only [listInfix, Bool.or_eq_true] at h
    rcases h with h | h
    · exact listInfix_of_isPrefixOf (List.isPrefixOf_iff_prefix.mpr
        ((List.isPrefixOf_iff_prefix.mp h).trans (List.prefix_append (c :: ls) b)))
    · exact listInfix_cons c (ih h)

theorem listInfix_mem {w l : List Char} (h : listInfix w l = true) : ∀ c ∈ w, c ∈ l := by
  induction l with
  | nil =>
    intro c hc
    simp only [listInfix, List.isEmpty_iff] at h
    subst h
    simp at hc
  | cons a ls ih =>
    intro c hc
    simp only [listInfix, Bool.or_eq_true] at h
    rcases h with h | h
    · exact (List.isPrefixOf_iff_prefix.mp h).subset hc
    · exact List.mem_cons_of_mem a (ih h c hc)

/-- The limit clause appended by the injection helpers always makes the
uppercased SQL contain `LIMIT`. -/
theorem inject_output_contains_LIMIT (x t : String) :
    pyIn "LIMIT" (pyUpper (x ++ " LIMIT " ++ t ++ ";")) = true := by
  simp only [pyIn, pyUpper, String.data_append, List.map_append]
  apply listInfix_append_right
  apply listInfix_append_right
  apply listInfix_append_left
  decide

/-! ## C3: limit injection -/

/-- C3: limit injection is idempotent. If the uppercased SQL does not contain
`LIMIT`, both the linear agent's inline transformation and the warehouse
client's `execute_query` transformation (at the default `sql_result_limit` of
500) append exactly one trailing limit clause after stripping trailing
semicolons; if `LIMIT` is already present (any case), the SQL is returned
unchanged; consequently applying either transformation twice equals applying
it once. -/
theorem limit_injection_idempotent (limit : Nat) (sql : String) :
    (pyIn "LIMIT" (pyUpper sql) = false →
      injectLimitAgent limit sql = pyRstripSemi sql ++ " LIMIT " ++ toString limit ++ ";" ∧
      clientInjectLimit settings_sql_result_limit sql
        = pyRstripSemi sql ++ " LIMIT " ++ toString settings_sql_result_limit ++ ";") ∧
    (pyIn "LIMIT" (pyUpper sql) = true →
      injectLimitAgent limit sql = sql ∧
      clientInjectLimit settings_sql_result_limit sql = sql) ∧
    injectLimitAgent limit (injectLimitAgent limit sql) = injectLimitAgent limit sql ∧
    clientInjectLimit settings_sql_result_limit
        (clientInjectLimit settings_sql_result_limit sql)
      = clientInjectLimit settings_sql_result_limit sql := by
  refine ⟨?_, ?_, ?_, ?_⟩
  · intro h
    constructor <;> simp [injectLimitAgent, clientInjectLimit, h, settings_sql_result_limit]
  · intro h
    constructor <;> simp [injectLimitAgent, clientInjectLimit, h]
  · by_cases h : pyIn "LIMIT" (pyUpper sql) = true
    · simp [injectLimitAgent, h]
    · simp only [Bool.not_eq_true] at h
      have h1 : injectLimitAgent limit sql
          = pyRstripSemi sql ++ " LIMIT " ++ toString limit ++ ";" := by
        simp [injectLimitAgent, h]
      rw [h1]
      simp [injectLimitAgent, inject_output_contains_LIMIT]
  · by_cases h : pyIn "LIMIT" (pyUpper sql) = true
    · simp [clientInjectLimit, h]
    · simp only [Bool.not_eq_true] at h
      have h1 : clientInjectLimit settings_sql_result_limit sql
          = pyRstripSemi sql ++ " LIMIT " ++ toString settings_sql_result_limit ++ ";" := by
        simp [clientInjectLimit, h, settings_sql_result_limit]
      rw [h1]
      simp [clientInjectLimit, inject_output_contains_LIMIT]

/-- Witness for C3 at a concrete query without a limit clause. -/
theorem limit_injection_idempotent_witness :
    pyIn "LIMIT" (pyUpper "SELECT * FROM t;") = false ∧
    (injectLimitAgent 500 "SELECT * FROM t;"
        = pyRstripSemi "SELECT * FROM t;" ++ " LIMIT " ++ toString 500 ++ ";" ∧
      clientInjectLimit settings_sql_result_limit "SELECT * FROM t;"
        = pyRstripSemi "SELECT * FROM t;" ++ " LIMIT "
            ++ toString settings_sql_result_limit ++ ";") :=
  ⟨by decide, (limit_injection_idempotent 500 "SELECT * FROM t;").1 (by decide)⟩

/-! ## C1: forbidden operations short-circuit the schema validator -/

/-- C1: whenever a forbidden keyword occurs as a whole word (case-insensitive)
in the SQL, `SchemaValidator._run` returns `valid = false` with the singleton
error list `["Forbidden operation: <KEYWORD>. Only SELECT queries are
allowed."]` for such a keyword, the payload carries no table-check keys, and
the warehouse client is never consulted (no table-existence or dry-run
check), so no other error kind can accompany the forbidden-operation error. -/
theorem schema_validator_forbidden_shortcircuit (client : BQClientModel) (sql : String)
    (h : ∃ kw ∈ FORBIDDEN_OPERATIONS, containsWholeWord kw (pyUpper sql) = true) :
    ∃ kw ∈ FORBIDDEN_OPERATIONS, containsWholeWord kw (pyUpper sql) = true ∧
      schemaValidator_run client sql =
        ⟨⟨false, ["Forbidden operation: " ++ kw ++ ". Only SELECT queries are allowed."],
          [], none, none⟩, false⟩ := by
  have hsome : (FORBIDDEN_OPERATIONS.find?
      (fun operation => containsWholeWord operation (pyUpper sql))).isSome := by
    rw [List.find?_isSome]
    exact h
  obtain ⟨kw, hfind⟩ := Option.isSome_iff_exists.mp hsome
  refine ⟨kw, List.mem_of_find?_eq_some hfind, by simpa using List.find?_some hfind, ?_⟩
  simp [schemaValidator_run, check_forbidden_operations, hfind]

/-- Witness for C1: a `DROP` statement is rejected without consulting the
warehouse. -/
theorem schema_validator_forbidden_shortcircuit_witness :
    ∃ kw ∈ FORBIDDEN_OPERATIONS, containsWholeWord kw (pyUpper "DROP TABLE t1") = true ∧
      schemaValidator_run ⟨some ["t1"], fun _ => none⟩ "DROP TABLE t1" =
        ⟨⟨false, ["Forbidden operation: " ++ kw ++ ". Only SELECT queries are allowed."],
          [], none, none⟩, false⟩ :=
  schema_validator_forbidden_shortcircuit ⟨some ["t1"], fun _ => none⟩ "DROP TABLE t1"
    ⟨"DROP", by decide, by decide⟩

/-! ## C4: validator payload invariant -/

/-- C4: for every SQL string and every outcome of the table-existence and
dry-run checks, the payload of `SchemaValidator._run` has `valid = true`
exactly when its error list is empty (so `valid = false` always carries at
least one error). -/
theorem schema_validator_valid_iff_errors_empty (client : BQClientModel) (sql : String) :
    (schemaValidator_run client sql).payload.valid = true
      ↔ (schemaValidator_run client sql).payload.errors = [] := by
  cases hf : check_forbidden_operations sql with
  | some err => simp [schemaValidator_run, hf]
  | none =>
    simp only [schemaValidator_run, hf]
    exact List.isEmpty_iff

/-! ## C5: executor error classification -/

/-- Counterexample to C5 as stated: a message containing both "timeout" and
"permission" classifies as `TIMEOUT`, not `PERMISSION_ERROR`, because the
timeout check runs first. -/
theorem classify_error_counterexample :
    pyIn "permission" (pyLower "timeout while checking permission") = true ∧
    classify_error "timeout while checking permission" ≠ "PERMISSION_ERROR" := by
  constructor
  · decide
  · decide

/-- C5 (amended): `_classify_error` is a pure function of the message text
with: any message containing "timeout" (case-insensitive) classifying as
`TIMEOUT`; any message containing "permission" or "access denied" and not
containing "timeout" classifying as `PERMISSION_ERROR`; and any message
containing none of the recognized substrings classifying as
`EXECUTION_ERROR`. -/
theorem classify_error_amended (msg : String) :
    (pyIn "timeout" (pyLower msg) = true → classify_error msg = "TIMEOUT") ∧
    (pyIn "timeout" (pyLower msg) = false →
      (pyIn "permission" (pyLower msg) = true ∨ pyIn "access denied" (pyLower msg) = true) →
      classify_error msg = "PERMISSION_ERROR") ∧
    (pyIn "timeout" (pyLower msg) = false → pyIn "permission" (pyLower msg) = false →
      pyIn "access denied" (pyLower msg) = false → pyIn "quota" (pyLower msg) = false →
      pyIn "rate limit" (pyLower msg) = false → pyIn "connection" (pyLower msg) = false →
      pyIn "network" (pyLower msg) = false → pyIn "syntax" (pyLower msg) = false →
      pyIn "not found" (pyLower msg) = false → pyIn "does not exist" (pyLower msg) = false →
      classify_error msg = "EXECUTION_ERROR") := by
  refine ⟨?_, ?_, ?_⟩
  · intro h
    simp [classify_error, h]
  · intro h hp
    rcases hp with hp | hp <;> simp [classify_error, h, hp]
  · intro h1 h2 h3 h4 h5 h6 h7 h8 h9 h10
    simp [classify_error, h1, h2, h3, h4, h5, h6, h7, h8, h9, h10]

/-- Witness for C5 (amended) at concrete messages of each of the three
amended classes. -/
theorem classify_error_amended_witness :
    (pyIn "timeout" (pyLower "Connection timeout") = true ∧
      classify_error "Connection timeout" = "TIMEOUT") ∧
    (pyIn "timeout" (pyLower "Access Denied for user") = false ∧
      classify_error "Access Denied for user" = "PERMISSION_ERROR") ∧
    classify_error "unexpected failure" = "EXECUTION_ERROR" :=
  ⟨⟨by decide, (classify_error_amended "Connection timeout").1 (by decide)⟩,
   ⟨by decide, (classify_error_amended "Access Denied for user").2.1 (by decide)
      (Or.inr (by decide))⟩,
   (classify_error_amended "unexpected failure").2.2 (by decide) (by decide) (by decide)
     (by decide) (by decide) (by decide) (by decide) (by decide) (by decide) (by decide)⟩

/-! ## C7: fail-closed table-existence checking -/

theorem lookup_map_pair (f : String → Bool) :
    ∀ (l : List String) (t : String),
      (l.map (fun x => (x, f x))).lookup t = if t ∈ l then some (f t) else none := by
  intro l
  induction l with
  | nil => intro t; simp
  | cons a as ih =>
    intro t
    by_cases h : t = a
    · subst h
      simp [List.lookup]
    · have hba : (t == a) = false := by simp [h]
      simp [List.lookup, hba, ih, List.mem_cons, h]

/-- C7: `validate_tables_exist` returns a map whose key set is exactly the
requested table names; when introspection succeeds each name maps to its
membership in the live usable-table list, and when introspection fails the
call still returns (fail-closed) with every requested name mapped to
`false`. -/
theorem validate_tables_exist_spec (client : BQClientModel) (table_names : List String) :
    (∀ t, ((validate_tables_exist client table_names).lookup t).isSome = true
        ↔ t ∈ table_names) ∧
    (∀ existing_tables, client.usable_tables = some existing_tables →
      ∀ t ∈ table_names,
        (validate_tables_exist client table_names).lookup t
          = some (existing_tables.contains t)) ∧
    (client.usable_tables = none →
      ∀ t ∈ table_names,
        (validate_tables_exist client table_names).lookup t = some false) := by
  refine ⟨?_, ?_, ?_⟩
  · intro t
    cases hu : client.usable_tables with
    | none =>
      rw [validate_tables_exist, hu, lookup_map_pair]
      split <;> simp_all
    | some existing_tables =>
      rw [validate_tables_exist, hu, lookup_map_pair]
      split <;> simp_all
  · intro existing_tables hu t ht
    rw [validate_tables_exist, hu, lookup_map_pair, if_pos ht]
  · intro hu t ht
    rw [validate_tables_exist, hu, lookup_map_pair, if_pos ht]

/-- Witness for C7: a live list missing one requested table, and a failing
introspection reporting `false` for an existing table. -/
theorem validate_tables_exist_spec_witness :
    (validate_tables_exist ⟨some ["t1"], fun _ => none⟩ ["t1", "t2"]).lookup "t2"
        = some ((["t1"] : List String).contains "t2") ∧
    (validate_tables_exist ⟨none, fun _ => none⟩ ["t1"]).lookup "t1" = some false :=
  ⟨(validate_tables_exist_spec ⟨some ["t1"], fun _ => none⟩ ["t1", "t2"]).2.1
      ["t1"] rfl "t2" (by decide),
   (validate_tables_exist_spec ⟨none, fun _ => none⟩ ["t1"]).2.2 rfl "t1" (by decide)⟩

/-! ## C6: table-description loading -/

/-- C6 (the loaded operation is modelled from the spec, see
`load_table_descriptions`): for a loader constructed with a non-empty
database name, construction succeeds, `load_table_descriptions` returns the
table-description file's contents whenever the file exists — so the calls
made by the linear agent and the table-description retriever succeed in that
case — and when the file is absent it fails with a file-not-found error,
the only error the operation can produce. -/
theorem prompt_loader_table_descriptions (fs : String → Option String) (database : String)
    (hdb : database ≠ "") :
    promptLoader_init database = .ok database ∧
    (∀ contents, fs (table_descriptions_file database) = some contents →
      load_table_descriptions fs database = .ok contents) ∧
    (fs (table_descriptions_file database) = none →
      load_table_descriptions fs database
        = .error (.fileNotFound (table_descriptions_file database))) := by
  refine ⟨by simp [promptLoader_init, hdb], ?_, ?_⟩
  · intro contents hc
    simp [load_table_descriptions, hc]
  · intro hc
    simp [load_table_descriptions, hc]

/-- Witness for C6 at database `enaho`, with the expected file present and
absent respectively. -/
theorem prompt_loader_table_descriptions_witness :
    promptLoader_init "enaho" = .ok "enaho" ∧
    load_table_descriptions
        (fun p => if p = "enaho_tables.md" then some "# tables" else none) "enaho"
      = .ok "# tables" ∧
    load_table_descriptions (fun _ => none) "enaho"
      = .error (.fileNotFound (table_descriptions_file "enaho")) :=
  ⟨(prompt_loader_table_descriptions (fun _ => none) "enaho" (by decide)).1,
   (prompt_loader_table_descriptions _ "enaho" (by decide)).2.1 "# tables" (by decide),
   (prompt_loader_table_descriptions (fun _ => none) "enaho" (by decide)).2.2 rfl⟩

/-! ## C8: uniform failure envelopes of the column-retriever variants -/

/-- C8: both column-retriever variants reject an empty or whitespace-only
query and an empty table list with a structured failure envelope
(`success = false`, no columns, an explanatory error string) before any
embedding or vector-search call; embedding failures produce the failure
envelope without a search call; and search failures produce the failure
envelope rather than an exception. Both variants present the same
success/columns/error envelope type to callers. -/
theorem column_retrievers_failure_envelopes (envA : PineconeEnv) (envB : VertexEnv)
    (query database : String) (selected_tables : List String) :
    ((pyStrip query = "" ∨ selected_tables = []) →
      (failureEnvelope (columnRetrieverA_run envA query database selected_tables).out ∧
        (columnRetrieverA_run envA query database selected_tables).embed_called = false ∧
        (columnRetrieverA_run envA query database selected_tables).search_called = false) ∧
      (failureEnvelope (columnRetrieverB_run envB query database selected_tables).out ∧
        (columnRetrieverB_run envB query database selected_tables).embed_called = false ∧
        (columnRetrieverB_run envB query database selected_tables).search_called = false)) ∧
    (((∃ m, envA.embed = .raised m) ∨ envA.embed = .returned none
        ∨ envA.embed = .returned (some [])) →
      failureEnvelope (columnRetrieverA_run envA query database selected_tables).out ∧
      (columnRetrieverA_run envA query database selected_tables).search_called = false) ∧
    (((∃ m, envB.embed = .raised m) ∨ envB.embed = .returned none
        ∨ envB.embed = .returned (some [])) →
      failureEnvelope (columnRetrieverB_run envB query database selected_tables).out ∧
      (columnRetrieverB_run envB query database selected_tables).search_called = false) ∧
    ((∃ m, envA.search = .raised m) →
      failureEnvelope (columnRetrieverA_run envA query database selected_tables).out) ∧
    ((∃ m, envB.search = .raised m) →
      failureEnvelope (columnRetrieverB_run envB query database selected_tables).out) := by
  refine ⟨?_, ?_, ?_, ?_, ?_⟩
  · intro h
    constructor
    · rcases h with hq | ht
      · simp [columnRetrieverA_run, failureEnvelope, hq]
      · simp only [columnRetrieverA_run, ht]
        split <;> simp [failureEnvelope]
    · rcases h with hq | ht
      · simp only [columnRetrieverB_run]
        split
        · simp [failureEnvelope]
        · simp [failureEnvelope, hq]
      · simp only [columnRetrieverB_run, ht]
        split
        · simp [failureEnvelope]
        · split
          · simp [failureEnvelope]
          · simp [failureEnvelope]
  · intro h
    rcases h with ⟨m, hm⟩ | hm | hm <;>
      · simp only [columnRetrieverA_run, hm]
        repeat' split
        all_goals simp_all [failureEnvelope]
  · intro h
    rcases h with ⟨m, hm⟩ | hm | hm <;>
      · simp only [columnRetrieverB_run, hm]
        repeat' split
        all_goals simp_all [failureEnvelope]
  · intro h
    obtain ⟨m, hm⟩ := h
    simp only [columnRetrieverA_run]
    repeat' split
    all_goals simp_all [failureEnvelope]
  · intro h
    obtain ⟨m, hm⟩ := h
    simp only [columnRetrieverB_run]
    repeat' split
    all_goals simp_all [failureEnvelope]

/-- Witness for C8: a whitespace-only query, a failing embedding call, and a
failing search call, on both variants. -/
theorem column_retrievers_failure_envelopes_witness :
    (failureEnvelope (columnRetrieverA_run
        ⟨.returned (some [1]), .returned []⟩ "  " "enaho" ["t1"]).out ∧
      (columnRetrieverA_run ⟨.returned (some [1]), .returned []⟩ "  " "enaho" ["t1"]).embed_called
        = false) ∧
    (failureEnvelope (columnRetrieverB_run
        ⟨.raised "quota", .returned []⟩ "income" "enaho" ["t1"]).out ∧
      (columnRetrieverB_run ⟨.raised "quota", .returned []⟩ "income" "enaho" ["t1"]).search_called
        = false) ∧
    failureEnvelope (columnRetrieverA_run
        ⟨.returned (some [1]), .raised "backend down"⟩ "income" "enaho" ["t1"]).out := by
  refine ⟨⟨?_, ?_⟩, ⟨?_, ?_⟩, ?_⟩
  · exact (((column_retrievers_failure_envelopes ⟨.returned (some [1]), .returned []⟩
      ⟨.raised "quota", .returned []⟩ "  " "enaho" ["t1"]).1 (Or.inl (by decide))).1).1
  · exact (((column_retrievers_failure_envelopes ⟨.returned (some [1]), .returned []⟩
      ⟨.raised "quota", .returned []⟩ "  " "enaho" ["t1"]).1 (Or.inl (by decide))).1).2.1
  · exact ((column_retrievers_failure_envelopes ⟨.returned (some [1]), .returned []⟩
      ⟨.raised "quota", .returned []⟩ "income" "enaho" ["t1"]).2.2.1
        (Or.inl ⟨"quota", rfl⟩)).1
  · exact ((column_retrievers_failure_envelopes ⟨.returned (some [1]), .returned []⟩
      ⟨.raised "quota", .returned []⟩ "income" "enaho" ["t1"]).2.2.1
        (Or.inl ⟨"quota", rfl⟩)).2
  · exact (column_retrievers_failure_envelopes ⟨.returned (some [1]), .raised "backend down"⟩
      ⟨.raised "quota", .returned []⟩ "income" "enaho" ["t1"]).2.2.2.1
        ⟨"backend down", rfl⟩

/-! ## C10: empty retrieval reported as plain success -/

/-- C10: when the Pinecone column retriever's embedding and search both
succeed but no match clears the similarity floor (or every surviving match
lacks a metadata field), the tool reports `success = true` with an empty
column list and a null error — no warning of any kind — whereas the
methodology retriever in the analogous situation still reports success but
attaches an advisory warning. -/
theorem empty_column_retrieval_is_silent_success (envA : PineconeEnv) (envM : MethodologyEnv)
    (query database : String) (selected_tables : List String)
    (emb embM : Embedding) (ms : List PineconeMatch) (rs : List DocMatch)
    (hq : ¬ pyStrip query = "") (ht : ¬ selected_tables = [])
    (hembA : envA.embed = .returned (some emb)) (hembA1 : ¬ emb = [])
    (hsA : envA.search = .returned ms)
    (hms : ∀ m ∈ ms, m.score.getD 0 < settings_similarity_threshold ∨ m.metadata = none)
    (hembM : envM.embed = .returned (some embM)) (hembM1 : ¬ embM = [])
    (hsM : envM.search = .returned rs)
    (hrs : ∀ r ∈ rs, r.score.getD 0 < settings_similarity_threshold) :
    (columnRetrieverA_run envA query database selected_tables).out
        = ⟨true, [], none⟩ ∧
    (methodologyRetriever_run envM query database).success = true ∧
    (methodologyRetriever_run envM query database).chunks = [] ∧
    (methodologyRetriever_run envM query database).error = none ∧
    (methodologyRetriever_run envM query database).warning.isSome = true := by
  have hcols : (ms.filter (fun r => settings_similarity_threshold ≤ r.score.getD 0)).filterMap
      (fun r => r.metadata.map (fun md => columnInfoOfMatch md r.score)) = [] := by
    rw [List.filterMap_eq_nil_iff]
    intro m hm
    have hmem := List.mem_of_mem_filter hm
    have hpass := List.of_mem_filter hm
    rcases hms m hmem with hlt | hnone
    · exact absurd hpass (by simp [not_le.mpr hlt])
    · simp [hnone]
  have hchunks : rs.filter (fun r => settings_similarity_threshold ≤ r.score.getD 0) = [] := by
    rw [List.filter_eq_nil_iff]
    intro r hr
    simpa using not_le.mpr (hrs r hr)
  refine ⟨?_, ?_⟩
  · simp [columnRetrieverA_run, hq, List.isEmpty_iff, ht, hembA, hembA1, hsA, hcols]
  · simp [methodologyRetriever_run, hq, hembM, hembM1, hsM, hchunks]

/-- Witness for C10 with concrete successful-but-empty search results. -/
theorem empty_column_retrieval_is_silent_success_witness :
    (columnRetrieverA_run ⟨.returned (some [1]), .returned []⟩ "income" "enaho" ["t1"]).out
        = ⟨true, [], none⟩ ∧
    (methodologyRetriever_run ⟨.returned (some [1]), .returned []⟩ "income" "enaho").success
        = true ∧
    (methodologyRetriever_run ⟨.returned (some [1]), .returned []⟩ "income" "enaho").warning.isSome
        = true := by
  have h := empty_column_retrieval_is_silent_success ⟨.returned (some [1]), .returned []⟩
    ⟨.returned (some [1]), .returned []⟩ "income" "enaho" ["t1"] [1] [1] [] []
    (by decide) (by decide) rfl (by decide) rfl (by simp) rfl (by decide) rfl (by simp)
  exact ⟨h.1, h.2.1, h.2.2.2.2⟩

/-! ## Linear-agent node lemmas -/

/-- `selectLoop` touches only `selected_tables`, `tools_executed` and
`error`. -/
theorem selectLoop_frame (o : Nat → SelectOutcome) (maxR : Nat) :
    ∀ (r a : Nat) (u : BaseSQLState),
      (selectLoop o maxR a r u).messages = u.messages ∧
      (selectLoop o maxR a r u).retry_count = u.retry_count ∧
      (selectLoop o maxR a r u).query = u.query ∧
      (selectLoop o maxR a r u).retrieved_columns = u.retrieved_columns ∧
      (selectLoop o maxR a r u).generated_sql = u.generated_sql ∧
      (selectLoop o maxR a r u).sql_validation_result = u.sql_validation_result ∧
      (selectLoop o maxR a r u).query_results = u.query_results ∧
      (selectLoop o maxR a r u).vector_search_metadata = u.vector_search_metadata ∧
      (selectLoop o maxR a r u).final_answer = u.final_answer := by
  intro r
  induction r with
  | zero => intro a u; exact ⟨rfl, rfl, rfl, rfl, rfl, rfl, rfl, rfl, rfl⟩
  | succ n ih =>
    intro a u
    cases ho : o a with
    | invokeError =>
      simp only [selectLoop, ho]
      split
      · exact ih (a + 1) _
      · exact ih (a + 1) u
    | parseFailure =>
      simp only [selectLoop, ho]
      split
      · exact ih (a + 1) _
      · exact ih (a + 1) _
    | jsonList tables =>
      simp only [selectLoop, ho]
      split
      · trivial
      · trivial
    | jsonOther =>
      simp only [selectLoop, ho]
      trivial

/-- `genLoop` touches only `generated_sql`, `tools_executed` and `error`. -/
theorem genLoop_frame (o : Nat → Option String) (limit : Nat) :
    ∀ (r a : Nat) (u : BaseSQLState),
      (genLoop o limit a r u).messages = u.messages ∧
      (genLoop o limit a r u).retry_count = u.retry_count ∧
      (genLoop o limit a r u).query = u.query ∧
      (genLoop o limit a r u).selected_tables = u.selected_tables ∧
      (genLoop o limit a r u).retrieved_columns = u.retrieved_columns ∧
      (genLoop o limit a r u).sql_validation_result = u.sql_validation_result ∧
      (genLoop o limit a r u).query_results = u.query_results ∧
      (genLoop o limit a r u).vector_search_metadata = u.vector_search_metadata ∧
      (genLoop o limit a r u).final_answer = u.final_answer := by
  intro r
  induction r with
  | zero => intro a u; trivial
  | succ n ih =>
    intro a u
    cases ho : o a with
    | none => simp only [genLoop, ho]; exact ih (a + 1) u
    | some sql =>
      simp only [genLoop, ho]
      split
      · trivial
      · exact ih (a + 1) u

/-- `select_tables` touches only `query`, `selected_tables`, `tools_executed`
and `error`. -/
theorem select_tables_frame (e : PassEnv) (maxR : Nat) (s : BaseSQLState) :
    (select_tables e maxR s).messages = s.messages ∧
    (select_tables e maxR s).retry_count = s.retry_count ∧
    (select_tables e maxR s).retrieved_columns = s.retrieved_columns ∧
    (select_tables e maxR s).generated_sql = s.generated_sql ∧
    (select_tables e maxR s).sql_validation_result = s.sql_validation_result ∧
    (select_tables e maxR s).query_results = s.query_results ∧
    (select_tables e maxR s).vector_search_metadata = s.vector_search_metadata ∧
    (select_tables e maxR s).final_answer = s.final_answer := by
  simp only [select_tables]
  cases s.messages.getLast? with
  | none => trivial
  | some m =>
    cases e.table_descriptions with
    | none => trivial
    | some td =>
      have h := selectLoop_frame e.select_llm maxR maxR 0 { s with query := m }
      exact ⟨h.1, h.2.1, h.2.2.2.1, h.2.2.2.2.1, h.2.2.2.2.2.1, h.2.2.2.2.2.2.1,
        h.2.2.2.2.2.2.2.1, h.2.2.2.2.2.2.2.2⟩

/-- `retrieve_columns` touches only `retrieved_columns`,
`vector_search_metadata`, `tools_executed` and `error`. -/
theorem retrieve_columns_frame (e : PassEnv) (db : String) (s : BaseSQLState) :
    (retrieve_columns e db s).messages = s.messages ∧
    (retrieve_columns e db s).retry_count = s.retry_count ∧
    (retrieve_columns e db s).query = s.query ∧
    (retrieve_columns e db s).selected_tables = s.selected_tables ∧
    (retrieve_columns e db s).generated_sql = s.generated_sql ∧
    (retrieve_columns e db s).sql_validation_result = s.sql_validation_result ∧
    (retrieve_columns e db s).query_results = s.query_results ∧
    (retrieve_columns e db s).final_answer = s.final_answer := by
  simp only [retrieve_columns]
  split
  · trivial
  · split <;> trivial

/-- `generate_sql` touches only `generated_sql`, `tools_executed` and
`error`. -/
theorem generate_sql_frame (e : PassEnv) (limit maxR : Nat) (s : BaseSQLState) :
    (generate_sql e limit maxR s).messages = s.messages ∧
    (generate_sql e limit maxR s).retry_count = s.retry_count ∧
    (generate_sql e limit maxR s).query = s.query ∧
    (generate_sql e limit maxR s).selected_tables = s.selected_tables ∧
    (generate_sql e limit maxR s).retrieved_columns = s.retrieved_columns ∧
    (generate_sql e limit maxR s).sql_validation_result = s.sql_validation_result ∧
    (generate_sql e limit maxR s).query_results = s.query_results ∧
    (generate_sql e limit maxR s).vector_search_metadata = s.vector_search_metadata ∧
    (generate_sql e limit maxR s).final_answer = s.final_answer := by
  simp only [generate_sql]
  split
  · trivial
  · have h := genLoop_frame e.sql_llm limit maxR 0 s
    exact ⟨h.1, h.2.1, h.2.2.1, h.2.2.2.1, h.2.2.2.2.1, h.2.2.2.2.2.1,
      h.2.2.2.2.2.2.1, h.2.2.2.2.2.2.2.1, h.2.2.2.2.2.2.2.2⟩

/-- `validate_sql` touches only `sql_validation_result`, `tools_executed` and
`error`. -/
theorem validate_sql_frame (e : PassEnv) (s : BaseSQLState) :
    (validate_sql e s).messages = s.messages ∧
    (validate_sql e s).retry_count = s.retry_count ∧
    (validate_sql e s).query = s.query ∧
    (validate_sql e s).selected_tables = s.selected_tables ∧
    (validate_sql e s).retrieved_columns = s.retrieved_columns ∧
    (validate_sql e s).generated_sql = s.generated_sql ∧
    (validate_sql e s).query_results = s.query_results ∧
    (validate_sql e s).vector_search_metadata = s.vector_search_metadata ∧
    (validate_sql e s).final_answer = s.final_answer := by
  simp only [validate_sql]
  split
  · trivial
  · split <;> trivial

/-- `agent_execute_query` touches only `query_results`, `tools_executed` and
`error`. -/
theorem agent_execute_query_frame (e : PassEnv) (db : String) (s : BaseSQLState) :
    (agent_execute_query e db s).messages = s.messages ∧
    (agent_execute_query e db s).retry_count = s.retry_count ∧
    (agent_execute_query e db s).query = s.query ∧
    (agent_execute_query e db s).selected_tables = s.selected_tables ∧
    (agent_execute_query e db s).retrieved_columns = s.retrieved_columns ∧
    (agent_execute_query e db s).generated_sql = s.generated_sql ∧
    (agent_execute_query e db s).sql_validation_result = s.sql_validation_result ∧
    (agent_execute_query e db s).vector_search_metadata = s.vector_search_metadata ∧
    (agent_execute_query e db s).final_answer = s.final_answer := by
  simp only [agent_execute_query]
  split
  · trivial
  · split
    · trivial
    · split
      · trivial
      · split <;> trivial

/-- The four downstream nodes leave the state unchanged once an error is
set. -/
theorem retrieve_columns_skip (e : PassEnv) (db : String) (s : BaseSQLState)
    (h : s.error.isSome = true) : retrieve_columns e db s = s := by
  simp [retrieve_columns, h]

theorem generate_sql_skip (e : PassEnv) (limit maxR : Nat) (s : BaseSQLState)
    (h : s.error.isSome = true) : generate_sql e limit maxR s = s := by
  simp [generate_sql, h]

theorem validate_sql_skip (e : PassEnv) (s : BaseSQLState)
    (h : s.error.isSome = true) : validate_sql e s = s := by
  simp [validate_sql, h]

theorem agent_execute_query_skip (e : PassEnv) (db : String) (s : BaseSQLState)
    (h : s.error.isSome = true) : agent_execute_query e db s = s := by
  simp [agent_execute_query, h]

/-- If the selection loop finishes without an error, it stored a non-empty
table list (induction along the remaining attempts of the `range` loop). -/
theorem selectLoop_error_none_tables (o : Nat → SelectOutcome) (maxR : Nat) :
    ∀ (r a : Nat) (u : BaseSQLState), 0 < r → a + r = maxR → u.error = none →
      (selectLoop o maxR a r u).error = none →
      (selectLoop o maxR a r u).selected_tables ≠ [] := by
  intro r
  induction r with
  | zero => intro a u h0; exact absurd h0 (lt_irrefl 0)
  | succ n ih =>
    intro a u _ hsum herr
    cases ho : o a with
    | invokeError =>
      simp only [selectLoop, ho]
      by_cases hlast : a = maxR - 1
      · have hn : n = 0 := by omega
        subst hn
        rw [if_pos hlast]
        intro hcontra
        simp [selectLoop] at hcontra
      · have hn : 0 < n := by omega
        rw [if_neg hlast]
        exact ih (a + 1) u hn (by omega) herr
    | parseFailure =>
      simp only [selectLoop, ho]
      by_cases hlast : a = maxR - 1
      · have hn : n = 0 := by omega
        subst hn
        rw [if_pos hlast]
        intro hcontra
        simp [selectLoop] at hcontra
      · have hn : 0 < n := by omega
        rw [if_neg hlast]
        exact ih (a + 1) _ hn (by omega) herr
    | jsonList tables =>
      simp only [selectLoop, ho]
      split
      · rename_i hcond
        intro _ hnil
        simp [List.isEmpty_iff] at hcond
        exact hcond hnil
      · intro hcontra
        simp at hcontra
    | jsonOther =>
      simp only [selectLoop, ho]
      intro hcontra
      simp at hcontra

/-- If `select_tables` exits without an error on a non-empty history, the
selected-table list is freshly set and non-empty. -/
theorem select_tables_error_none (e : PassEnv) (maxR : Nat) (hmax : 0 < maxR)
    (s : BaseSQLState) (hmsg : s.messages ≠ []) (herr : s.error = none) :
    (select_tables e maxR s).error = none →
    (select_tables e maxR s).selected_tables ≠ [] := by
  obtain ⟨m, hm⟩ := Option.isSome_iff_exists.mp (List.getLast?_isSome.mpr hmsg)
  simp only [select_tables, hm]
  cases e.table_descriptions with
  | none => intro hcontra; simp at hcontra
  | some td =>
    exact selectLoop_error_none_tables e.select_llm maxR maxR 0 _ hmax (by omega) herr

/-- If `retrieve_columns` runs (no error, tables selected) and exits without
an error, the retrieved-column list is freshly set and non-empty. -/
theorem retrieve_columns_error_none (e : PassEnv) (db : String) (s : BaseSQLState)
    (herr : s.error = none) (hsel : s.selected_tables ≠ []) :
    (retrieve_columns e db s).error = none →
    (retrieve_columns e db s).retrieved_columns ≠ [] := by
  have hguard : (s.error.isSome || s.selected_tables.isEmpty) = false := by
    simp [herr, List.isEmpty_iff, hsel]
  simp only [retrieve_columns, hguard, Bool.false_eq_true, if_false]
  split
  · rename_i hcond
    intro _
    simp only [Bool.and_eq_true, Bool.not_eq_true'] at hcond
    exact List.isEmpty_eq_false.mp hcond.2
  · intro hcontra
    simp at hcontra

/-- If the generation loop exits without an error, it stored a non-empty SQL
string whose uppercasing contains `LIMIT`. -/
theorem genLoop_generated (o : Nat → Option String) (limit : Nat) :
    ∀ (r a : Nat) (u : BaseSQLState), u.error = none →
      (genLoop o limit a r u).error = none →
      ∃ q, (genLoop o limit a r u).generated_sql = some q ∧
        pyIn "LIMIT" (pyUpper q) = true := by
  intro r
  induction r with
  | zero =>
    intro a u herr hcontra
    simp [genLoop] at hcontra
  | succ n ih =>
    intro a u herr
    cases ho : o a with
    | none => simp only [genLoop, ho]; exact ih (a + 1) u herr
    | some sql =>
      simp only [genLoop, ho]
      split
      · intro _
        refine ⟨injectLimitAgent limit sql, rfl, ?_⟩
        by_cases hc : pyIn "LIMIT" (pyUpper sql) = true
        · simp [injectLimitAgent, hc]
        · simp only [Bool.not_eq_true] at hc
          have h1 : injectLimitAgent limit sql
              = pyRstripSemi sql ++ " LIMIT " ++ toString limit ++ ";" := by
            simp [injectLimitAgent, hc]
          rw [h1]
          exact inject_output_contains_LIMIT _ _
      · exact ih (a + 1) u herr

/-- If `generate_sql` runs and exits without an error, the generated SQL is a
string whose uppercasing contains `LIMIT`. -/
theorem generate_sql_error_none (e : PassEnv) (limit maxR : Nat) (s : BaseSQLState)
    (herr : s.error = none) (hcols : s.retrieved_columns ≠ []) :
    (generate_sql e limit maxR s).error = none →
    ∃ q, (generate_sql e limit maxR s).generated_sql = some q ∧
      pyIn "LIMIT" (pyUpper q) = true := by
  have hguard : (s.error.isSome || s.retrieved_columns.isEmpty) = false := by
    simp [herr, List.isEmpty_iff, hcols]
  simp only [generate_sql, hguard, Bool.false_eq_true, if_false]
  exact genLoop_generated e.sql_llm limit maxR 0 s herr

/-- If `validate_sql` runs on a non-empty generated SQL string and exits
without an error, it stored a validation result marked valid. -/
theorem validate_sql_error_none (e : PassEnv) (s : BaseSQLState) (q : String)
    (herr : s.error = none) (hg : s.generated_sql = some q) (hq : ¬ q = "") :
    (validate_sql e s).error = none →
    ∃ v, (validate_sql e s).sql_validation_result = some v ∧ v.valid = true := by
  have hguard : (s.error.isSome || s.generated_sql.getD "" = "") = false := by
    simp [herr, hg, hq]
  simp only [validate_sql, hguard, Bool.false_eq_true, if_false]
  split
  · intro hcontra
    simp at hcontra
  · rename_i hcond
    intro _
    simp only [Bool.not_eq_true', Bool.not_eq_false] at hcond
    exact ⟨_, rfl, hcond⟩

/-- Uppercased SQL containing `LIMIT` contains a non-whitespace character, so
it survives `str.strip()`. -/
theorem mem_dropWhile_of_not (p : Char → Bool) :
    ∀ (l : List Char) (c : Char), c ∈ l → p c = false → c ∈ l.dropWhile p := by
  intro l
  induction l with
  | nil => intro c h _; simp at h
  | cons a as ih =>
    intro c hc hp
    by_cases hpa : p a = true
    · rw [List.dropWhile_cons, if_pos hpa]
      rcases List.mem_cons.mp hc with hca | hmem
      · exact absurd hpa (by rw [hca] at hp; simp [hp])
      · exact ih c hmem hp
    · rw [List.dropWhile_cons, if_neg hpa]
      exact hc

theorem ws_toUpper_ne (c : Char) (h : c.isWhitespace = true) : ¬ c.toUpper = 'L' := by
  simp [Char.isWhitespace] at h
  rcases h with ((h | h) | h) | h <;> subst h <;> decide

theorem pyStrip_ne_empty_of_mem {s : String} {c : Char} (hc : c ∈ s.data)
    (hw : c.isWhitespace = false) : ¬ pyStrip s = "" := by
  intro h
  have h1 : c ∈ s.data.dropWhile Char.isWhitespace := mem_dropWhile_of_not _ _ _ hc hw
  have h2 : c ∈ (s.data.dropWhile Char.isWhitespace).reverse := List.mem_reverse.mpr h1
  have h3 := mem_dropWhile_of_not _ _ _ h2 hw
  have h4 : c ∈ (pyStrip s).data := List.mem_reverse.mpr h3
  rw [h] at h4
  simp at h4

theorem pyStrip_ne_of_contains_LIMIT {q : String}
    (h : pyIn "LIMIT" (pyUpper q) = true) : ¬ pyStrip q = "" := by
  have hL : 'L' ∈ q.data.map Char.toUpper := listInfix_mem h 'L' (by decide)
  obtain ⟨c, hc, hcu⟩ := List.mem_map.mp hL
  have hw : c.isWhitespace = false := by
    by_contra hw
    simp only [Bool.not_eq_false] at hw
    exact ws_toUpper_ne c hw hcu
  exact pyStrip_ne_empty_of_mem hc hw

/-- If execution always fails, `agent_execute_query` on a validated state
sets an error. -/
theorem agent_execute_query_fails (e : PassEnv) (db : String) (s : BaseSQLState)
    (hfail : ∀ q', ∃ m, e.run_sql q' = Except.error m)
    (herr : s.error = none) (v : ValidationResult)
    (hv : s.sql_validation_result = some v) (hvv : v.valid = true)
    (q : String) (hg : s.generated_sql = some q) (hq : ¬ pyStrip q = "") :
    (agent_execute_query e db s).error.isSome = true := by
  obtain ⟨m, hm⟩ := hfail (clientInjectLimit settings_sql_result_limit q)
  simp [agent_execute_query, herr, hv, hvv, sqlExecutor_run, client_execute_query,
    hg, hq, hm]

/-- The five pipeline nodes preserve the message history and the retry
counter. -/
theorem pipelineOnce_frame (env : Nat → PassEnv) (db : String) (limit maxR : Nat)
    (s : BaseSQLState) :
    (pipelineOnce env db limit maxR s).messages = s.messages ∧
    (pipelineOnce env db limit maxR s).retry_count = s.retry_count := by
  simp only [pipelineOnce]
  constructor
  · rw [(agent_execute_query_frame _ _ _).1, (validate_sql_frame _ _).1,
      (generate_sql_frame _ _ _ _).1, (retrieve_columns_frame _ _ _).1,
      (select_tables_frame _ _ _).1]
  · rw [(agent_execute_query_frame _ _ _).2.1, (validate_sql_frame _ _).2.1,
      (generate_sql_frame _ _ _ _).2.1, (retrieve_columns_frame _ _ _).2.1,
      (select_tables_frame _ _ _).2.1]

/-- Under an always-failing executor, every pipeline pass entered without an
error (and with a non-empty history) exits with an error set. -/
theorem pipelineOnce_error_isSome (env : Nat → PassEnv) (db : String) (limit maxR : Nat)
    (hmax : 0 < maxR) (s : BaseSQLState)
    (hfail : ∀ q', ∃ m, (env s.retry_count).run_sql q' = Except.error m)
    (hmsg : s.messages ≠ []) (herr : s.error = none) :
    (pipelineOnce env db limit maxR s).error.isSome = true := by
  simp only [pipelineOnce]
  by_cases hA : (select_tables (env s.retry_count) maxR s).error.isSome = true
  · rw [retrieve_columns_skip _ _ _ hA, generate_sql_skip _ _ _ _ hA,
      validate_sql_skip _ _ hA, agent_execute_query_skip _ _ _ hA]
    exact hA
  · have hA0 : (select_tables (env s.retry_count) maxR s).error = none := by
      cases hA2 : (select_tables (env s.retry_count) maxR s).error
      · rfl
      · rw [hA2] at hA; simp at hA
    have hAt := select_tables_error_none (env s.retry_count) maxR hmax s hmsg herr hA0
    set A := select_tables (env s.retry_count) maxR s with hAdef
    by_cases hB : (retrieve_columns (env s.retry_count) db A).error.isSome = true
    · rw [generate_sql_skip _ _ _ _ hB, validate_sql_skip _ _ hB,
        agent_execute_query_skip _ _ _ hB]
      exact hB
    · have hB0 : (retrieve_columns (env s.retry_count) db A).error = none := by
        cases hB2 : (retrieve_columns (env s.retry_count) db A).error
        · rfl
        · rw [hB2] at hB; simp at hB
      have hBc := retrieve_columns_error_none (env s.retry_count) db A hA0 hAt hB0
      set B := retrieve_columns (env s.retry_count) db A with hBdef
      by_cases hC : (generate_sql (env s.retry_count) limit maxR B).error.isSome = true
      · rw [validate_sql_skip _ _ hC, agent_execute_query_skip _ _ _ hC]
        exact hC
      · have hC0 : (generate_sql (env s.retry_count) limit maxR B).error = none := by
          cases hC2 : (generate_sql (env s.retry_count) limit maxR B).error
          · rfl
          · rw [hC2] at hC; simp at hC
        obtain ⟨q, hCq, hCl⟩ :=
          generate_sql_error_none (env s.retry_count) limit maxR B hB0 hBc hC0
        set C := generate_sql (env s.retry_count) limit maxR B with hCdef
        by_cases hD : (validate_sql (env s.retry_count) C).error.isSome = true
        · rw [agent_execute_query_skip _ _ _ hD]
          exact hD
        · have hD0 : (validate_sql (env s.retry_count) C).error = none := by
            cases hD2 : (validate_sql (env s.retry_count) C).error
            · rfl
            · rw [hD2] at hD; simp at hD
          have hqne : ¬ q = "" := by
            intro hq0
            rw [hq0] at hCl
            simp [pyIn, pyUpper, listInfix] at hCl
          obtain ⟨v, hDv, hDvv⟩ := validate_sql_error_none (env s.retry_count) C q hC0 hCq hqne hD0
          have hDg : (validate_sql (env s.retry_count) C).generated_sql = some q := by
            rw [(validate_sql_frame (env s.retry_count) C).2.2.2.2.2.1, hCq]
          exact agent_execute_query_fails (env s.retry_count) db _ hfail hD0 v hDv hDvv q hDg
            (pyStrip_ne_of_contains_LIMIT hCl)

/-- `should_retry` branch characterizations. -/
theorem should_retry_continue_none (maxR : Nat) (s : BaseSQLState) (h : s.error = none) :
    should_retry maxR s = ("continue", s) := by
  simp [should_retry, h]

theorem should_retry_continue_exhausted (maxR : Nat) (s : BaseSQLState)
    (h : s.error.isSome = true) (h2 : maxR ≤ s.retry_count) :
    should_retry maxR s = ("continue", s) := by
  have hn : s.error.isNone = false := by
    cases he : s.error
    · rw [he] at h; simp at h
    · rfl
  simp [should_retry, hn, h2]

theorem should_retry_retry_eq (maxR : Nat) (s : BaseSQLState)
    (h : s.error.isSome = true) (h2 : s.retry_count < maxR) :
    should_retry maxR s = ("retry",
      { s with retry_count := s.retry_count + 1, error := none, generated_sql := none,
               sql_validation_result := none, query_results := none }) := by
  have hn : s.error.isNone = false := by
    cases he : s.error
    · rw [he] at h; simp at h
    · rfl
  simp [should_retry, hn, not_le.mpr h2]

/-- `format_answer` on an error state produces the apology template and keeps
the error. -/
theorem format_answer_of_error (e : PassEnv) (s : BaseSQLState) (msg : String)
    (h : s.error = some msg) :
    (format_answer e s).error = some msg ∧
    (format_answer e s).final_answer
      = some ("I encountered an issue while processing your query: " ++ msg) := by
  simp [format_answer, h]

/-- Generalized bounded-retry specification, by induction on an upper bound
for the retries still available. -/
theorem runLoop_spec (env : Nat → PassEnv) (db : String) (limit maxR : Nat)
    (hmax : 0 < maxR)
    (hfail : ∀ p q', ∃ m, (env p).run_sql q' = Except.error m) :
    ∀ (n : Nat) (s : BaseSQLState), maxR - s.retry_count ≤ n → s.messages ≠ [] →
      s.error = none →
      (runLoop env db limit maxR s).2 ≤ maxR - s.retry_count ∧
      ∃ sEnd msg, (runLoop env db limit maxR s).1 = format_answer (env sEnd.retry_count) sEnd ∧
        sEnd.error = some msg ∧
        (runLoop env db limit maxR s).1.final_answer
          = some ("I encountered an issue while processing your query: " ++ msg) := by
  intro n
  induction n with
  | zero =>
    intro s hle hmsg herr
    have hp := pipelineOnce_error_isSome env db limit maxR hmax s (hfail s.retry_count)
      hmsg herr
    obtain ⟨msg, hmsg1⟩ := Option.isSome_iff_exists.mp hp
    have hfr := pipelineOnce_frame env db limit maxR s
    have hge : maxR ≤ (pipelineOnce env db limit maxR s).retry_count := by
      rw [hfr.2]; omega
    have hsr := should_retry_continue_exhausted maxR _ hp hge
    rw [runLoop, dif_neg (by rw [hsr]; exact (by decide : ¬ ("continue" : String) = "retry"))]
    rw [hsr]
    refine ⟨by simp, pipelineOnce env db limit maxR s, msg, rfl, hmsg1, ?_⟩
    exact (format_answer_of_error _ _ msg hmsg1).2
  | succ n ih =>
    intro s hle hmsg herr
    have hp := pipelineOnce_error_isSome env db limit maxR hmax s (hfail s.retry_count)
      hmsg herr
    obtain ⟨msg, hmsg1⟩ := Option.isSome_iff_exists.mp hp
    have hfr := pipelineOnce_frame env db limit maxR s
    by_cases hlt : (pipelineOnce env db limit maxR s).retry_count < maxR
    · have hsr := should_retry_retry_eq maxR _ hp hlt
      rw [runLoop, dif_pos (by rw [hsr])]
      rw [hsr]
      have hrc : (pipelineOnce env db limit maxR s).retry_count = s.retry_count := hfr.2
      have hmsg2 : (pipelineOnce env db limit maxR s).messages = s.messages := hfr.1
      have hih := ih { pipelineOnce env db limit maxR s with
          retry_count := (pipelineOnce env db limit maxR s).retry_count + 1, error := none,
          generated_sql := none, sql_validation_result := none, query_results := none }
        (by simp only []; omega) (by simpa [hmsg2] using hmsg) rfl
      obtain ⟨hbound, sEnd, msg', h1, h2, h3⟩ := hih
      refine ⟨?_, sEnd, msg', h1, h2, h3⟩
      simp only [] at hbound ⊢
      omega
    · have hge : maxR ≤ (pipelineOnce env db limit maxR s).retry_count := by omega
      have hsr := should_retry_continue_exhausted maxR _ hp hge
      rw [runLoop, dif_neg (by rw [hsr]; exact (by decide : ¬ ("continue" : String) = "retry"))]
      rw [hsr]
      refine ⟨by simp, pipelineOnce env db limit maxR s, msg, rfl, hmsg1, ?_⟩
      exact (format_answer_of_error _ _ msg hmsg1).2

/-- C2: for a linear-agent run whose query execution fails on every attempt,
the retry branch of `should_retry` is taken at most `max_retries` times; the
retry branch only fires while `retry_count < max_retries` and increments it
by exactly one, so `retry_count` never exceeds the maximum; and the run
always terminates by reaching `format_answer` on a state carrying the last
observed error, which the final answer restates. -/
theorem bounded_retry_termination (env : Nat → PassEnv) (db : String) (limit maxR : Nat)
    (hmax : 0 < maxR)
    (hfail : ∀ p q', ∃ m, (env p).run_sql q' = Except.error m)
    (s0 : BaseSQLState) (hmsg : s0.messages ≠ []) (herr : s0.error = none)
    (hrc : s0.retry_count = 0) :
    (runLoop env db limit maxR s0).2 ≤ maxR ∧
    (∀ s : BaseSQLState, (should_retry maxR s).1 = "retry" →
      s.retry_count < maxR ∧ (should_retry maxR s).2.retry_count = s.retry_count + 1) ∧
    ∃ sEnd msg, (runLoop env db limit maxR s0).1 = format_answer (env sEnd.retry_count) sEnd ∧
      sEnd.error = some msg ∧
      (runLoop env db limit maxR s0).1.final_answer
        = some ("I encountered an issue while processing your query: " ++ msg) := by
  have hspec := runLoop_spec env db limit maxR hmax hfail maxR s0 (by omega) hmsg herr
  refine ⟨?_, ?_, hspec.2⟩
  · have hb := hspec.1
    omega
  · intro s hr
    by_cases he : s.error = none
    · rw [should_retry_continue_none maxR s he] at hr
      exact absurd hr ((by decide : ¬ ("continue" : String) = "retry"))
    · have hes : s.error.isSome = true := by
        cases he2 : s.error
        · exact absurd he2 he
        · rfl
      by_cases hlt : s.retry_count < maxR
      · rw [should_retry_retry_eq maxR s hes hlt]
        exact ⟨hlt, rfl⟩
      · rw [should_retry_continue_exhausted maxR s hes (by omega)] at hr
        exact absurd hr ((by decide : ¬ ("continue" : String) = "retry"))

/-- Witness for C2 at a concrete always-failing environment and a concrete
initial state. -/
theorem bounded_retry_termination_witness :
    (runLoop failingEnv "enaho" 500 3 witnessState).2 ≤ 3 ∧
    ∃ sEnd msg, (runLoop failingEnv "enaho" 500 3 witnessState).1
        = format_answer (failingEnv sEnd.retry_count) sEnd ∧
      sEnd.error = some msg ∧
      (runLoop failingEnv "enaho" 500 3 witnessState).1.final_answer
        = some ("I encountered an issue while processing your query: " ++ msg) := by
  have h := bounded_retry_termination failingEnv "enaho" 500 3 (by decide)
    (fun p q' => ⟨"boom", rfl⟩) witnessState (by decide) rfl rfl
  exact ⟨h.1, h.2.2⟩

/-! ## C9: noninterference lemmas -/

/-- The selection loop behaves identically on two error-free states: same
resulting error, same fresh table list when it succeeds, and the same audit
segment appended. -/
theorem selectLoop_congr (o : Nat → SelectOutcome) (maxR : Nat) :
    ∀ (r a : Nat) (u1 u2 : BaseSQLState), 0 < r → a + r = maxR →
      u1.error = none → u2.error = none →
      (selectLoop o maxR a r u1).error = (selectLoop o maxR a r u2).error ∧
      ((selectLoop o maxR a r u1).error = none →
        (selectLoop o maxR a r u1).selected_tables
          = (selectLoop o maxR a r u2).selected_tables) ∧
      ∃ tr, (selectLoop o maxR a r u1).tools_executed = u1.tools_executed ++ tr ∧
            (selectLoop o maxR a r u2).tools_executed = u2.tools_executed ++ tr := by
  intro r
  induction r with
  | zero => intro a u1 u2 h0; exact absurd h0 (lt_irrefl 0)
  | succ n ih =>
    intro a u1 u2 _ hsum h1 h2
    cases ho : o a with
    | invokeError =>
      simp only [selectLoop, ho]
      by_cases hlast : a = maxR - 1
      · have hn : n = 0 := by omega
        subst hn
        rw [if_pos hlast, if_pos hlast]
        refine ⟨by simp [selectLoop], ?_, [], by simp [selectLoop], by simp [selectLoop]⟩
        intro hcontra
        simp [selectLoop] at hcontra
      · have hn : 0 < n := by omega
        rw [if_neg hlast, if_neg hlast]
        exact ih (a + 1) u1 u2 hn (by omega) h1 h2
    | parseFailure =>
      simp only [selectLoop, ho]
      by_cases hlast : a = maxR - 1
      · have hn : n = 0 := by omega
        subst hn
        rw [if_pos hlast, if_pos hlast]
        refine ⟨by simp [selectLoop], ?_, ["table_selection"],
          by simp [selectLoop], by simp [selectLoop]⟩
        intro hcontra
        simp [selectLoop] at hcontra
      · have hn : 0 < n := by omega
        rw [if_neg hlast, if_neg hlast]
        obtain ⟨he, hsel, tr', htr1, htr2⟩ := ih (a + 1)
          { u1 with tools_executed := u1.tools_executed ++ ["table_selection"] }
          { u2 with tools_executed := u2.tools_executed ++ ["table_selection"] }
          hn (by omega) h1 h2
        refine ⟨he, hsel, "table_selection" :: tr', ?_, ?_⟩
        · rw [htr1]; simp
        · rw [htr2]; simp
    | jsonList tables =>
      by_cases htb : (!tables.isEmpty) = true
      · refine ⟨?_, ?_, ["table_selection"], ?_, ?_⟩ <;>
          simp [selectLoop, ho, htb, h1, h2]
      · refine ⟨?_, ?_, ["table_selection"], ?_, ?_⟩ <;>
          simp [selectLoop, ho, htb, h1, h2]
    | jsonOther =>
      refine ⟨?_, ?_, ["table_selection"], ?_, ?_⟩ <;>
        simp [selectLoop, ho, h1, h2]

/-- `select_tables` behaves identically on two error-free states with the
same non-empty message history. -/
theorem select_tables_congr (e : PassEnv) (maxR : Nat) (hmax : 0 < maxR)
    (s1 s2 : BaseSQLState) (hm : s1.messages = s2.messages) (hmne : s1.messages ≠ [])
    (h1 : s1.error = none) (h2 : s2.error = none) :
    (select_tables e maxR s1).query = (select_tables e maxR s2).query ∧
    (select_tables e maxR s1).error = (select_tables e maxR s2).error ∧
    ((select_tables e maxR s1).error = none →
      (select_tables e maxR s1).selected_tables
        = (select_tables e maxR s2).selected_tables) ∧
    ∃ tr, (select_tables e maxR s1).tools_executed = s1.tools_executed ++ tr ∧
          (select_tables e maxR s2).tools_executed = s2.tools_executed ++ tr := by
  obtain ⟨m, hm1⟩ := Option.isSome_iff_exists.mp (List.getLast?_isSome.mpr hmne)
  have hm2 : s2.messages.getLast? = some m := by rw [← hm]; exact hm1
  simp only [select_tables, hm1, hm2]
  cases e.table_descriptions with
  | none =>
    refine ⟨rfl, rfl, ?_, [], by simp, by simp⟩
    intro hcontra
    simp at hcontra
  | some td =>
    have h := selectLoop_congr e.select_llm maxR maxR 0
      { s1 with query := m } { s2 with query := m } hmax (by omega) h1 h2
    have hq1 := (selectLoop_frame e.select_llm maxR maxR 0 { s1 with query := m }).2.2.1
    have hq2 := (selectLoop_frame e.select_llm maxR maxR 0 { s2 with query := m }).2.2.1
    exact ⟨by rw [hq1, hq2], h.1, h.2.1, h.2.2⟩

/-- `retrieve_columns` behaves identically on two error-free states agreeing
on the query and the (non-empty) selected tables. -/
theorem retrieve_columns_congr (e : PassEnv) (db : String) (t1 t2 : BaseSQLState)
    (hq : t1.query = t2.query) (hsel : t1.selected_tables = t2.selected_tables)
    (hselne : t1.selected_tables ≠ [])
    (h1 : t1.error = none) (h2 : t2.error = none) :
    (retrieve_columns e db t1).error = (retrieve_columns e db t2).error ∧
    ((retrieve_columns e db t1).error = none →
      (retrieve_columns e db t1).retrieved_columns
        = (retrieve_columns e db t2).retrieved_columns) ∧
    ∃ tr, (retrieve_columns e db t1).tools_executed = t1.tools_executed ++ tr ∧
          (retrieve_columns e db t2).tools_executed = t2.tools_executed ++ tr := by
  have hg1 : (t1.error.isSome || t1.selected_tables.isEmpty) = false := by
    simp [h1, List.isEmpty_iff, hselne]
  have hg2 : (t2.error.isSome || t2.selected_tables.isEmpty) = false := by
    simp [h2, List.isEmpty_iff, ← hsel, hselne]
  simp only [retrieve_columns, hg1, hg2, Bool.false_eq_true, if_false]
  rw [hq, hsel]
  by_cases hcond : ((columnRetrieverA_run e.pinecone t2.query db
      t2.selected_tables).out.success
      && !(columnRetrieverA_run e.pinecone t2.query db
        t2.selected_tables).out.columns.isEmpty) = true
  · rw [if_pos hcond, if_pos hcond]
    exact ⟨by rw [h1, h2], fun _ => rfl, ["column_retrieval"], by simp, by simp⟩
  · rw [if_neg hcond, if_neg hcond]
    refine ⟨rfl, ?_, ["column_retrieval"], by simp, by simp⟩
    intro hcontra
    simp at hcontra

/-- The generation loop behaves identically on two states agreeing on error
and generated SQL. -/
theorem genLoop_congr (o : Nat → Option String) (limit : Nat) :
    ∀ (r a : Nat) (u1 u2 : BaseSQLState), u1.error = u2.error →
      u1.generated_sql = u2.generated_sql →
      (genLoop o limit a r u1).error = (genLoop o limit a r u2).error ∧
      (genLoop o limit a r u1).generated_sql = (genLoop o limit a r u2).generated_sql ∧
      ∃ tr, (genLoop o limit a r u1).tools_executed = u1.tools_executed ++ tr ∧
            (genLoop o limit a r u2).tools_executed = u2.tools_executed ++ tr := by
  intro r
  induction r with
  | zero =>
    intro a u1 u2 he hg
    exact ⟨by simp [genLoop], by simp [genLoop, hg], [], by simp [genLoop], by simp [genLoop]⟩
  | succ n ih =>
    intro a u1 u2 he hg
    cases ho : o a with
    | none =>
      simp only [genLoop, ho]
      exact ih (a + 1) u1 u2 he hg
    | some sql =>
      simp only [genLoop, ho]
      split
      · exact ⟨he, rfl, ["sql_generation"], by simp, by simp⟩
      · exact ih (a + 1) u1 u2 he hg


/-- `generate_sql` behaves identically on two error-free states agreeing on
the (non-empty) retrieved columns and the generated SQL. -/
theorem generate_sql_congr (e : PassEnv) (limit maxR : Nat) (t1 t2 : BaseSQLState)
    (h1 : t1.error = none) (h2 : t2.error = none)
    (hcols : t1.retrieved_columns = t2.retrieved_columns)
    (hcne : t1.retrieved_columns ≠ []) (hg : t1.generated_sql = t2.generated_sql) :
    (generate_sql e limit maxR t1).error = (generate_sql e limit maxR t2).error ∧
    (generate_sql e limit maxR t1).generated_sql
      = (generate_sql e limit maxR t2).generated_sql ∧
    ∃ tr, (generate_sql e limit maxR t1).tools_executed = t1.tools_executed ++ tr ∧
          (generate_sql e limit maxR t2).tools_executed = t2.tools_executed ++ tr := by
  have hg1 : (t1.error.isSome || t1.retrieved_columns.isEmpty) = false := by
    simp [h1, List.isEmpty_iff, hcne]
  have hg2 : (t2.error.isSome || t2.retrieved_columns.isEmpty) = false := by
    simp [h2, List.isEmpty_iff, ← hcols, hcne]
  simp only [generate_sql, hg1, hg2, Bool.false_eq_true, if_false]
  exact genLoop_congr e.sql_llm limit maxR 0 t1 t2 (by rw [h1, h2]) hg

/-- `validate_sql` behaves identically on two error-free states agreeing on
the generated SQL and validation result. -/
theorem validate_sql_congr (e : PassEnv) (t1 t2 : BaseSQLState)
    (h1 : t1.error = none) (h2 : t2.error = none)
    (hg : t1.generated_sql = t2.generated_sql)
    (hv : t1.sql_validation_result = t2.sql_validation_result) :
    (validate_sql e t1).error = (validate_sql e t2).error ∧
    (validate_sql e t1).generated_sql = (validate_sql e t2).generated_sql ∧
    (validate_sql e t1).sql_validation_result = (validate_sql e t2).sql_validation_result ∧
    ∃ tr, (validate_sql e t1).tools_executed = t1.tools_executed ++ tr ∧
          (validate_sql e t2).tools_executed = t2.tools_executed ++ tr := by
  have hgd : t1.generated_sql.getD "" = t2.generated_sql.getD "" := by rw [hg]
  by_cases hemp : t1.generated_sql.getD "" = ""
  · have hg1 : (t1.error.isSome || t1.generated_sql.getD "" = "") = true := by
      simp [hemp]
    have hg2 : (t2.error.isSome || t2.generated_sql.getD "" = "") = true := by
      simp [← hgd, hemp]
    simp only [validate_sql, hg1, hg2, if_true]
    exact ⟨by rw [h1, h2], hg, hv, [], by simp, by simp⟩
  · have hg1 : (t1.error.isSome || t1.generated_sql.getD "" = "") = false := by
      simp [h1, hemp]
    have hg2 : (t2.error.isSome || t2.generated_sql.getD "" = "") = false := by
      simp [h2, ← hgd, hemp]
    simp only [validate_sql, hg1, hg2, Bool.false_eq_true, if_false]
    rw [hgd]
    by_cases hval : (!(validationResultOfPayload
        (schemaValidator_run e.client (t2.generated_sql.getD "")).payload).valid) = true
    · rw [if_pos hval, if_pos hval]
      exact ⟨rfl, hg, rfl, ["sql_validation"], by simp, by simp⟩
    · rw [if_neg hval, if_neg hval]
      exact ⟨by rw [h1, h2], hg, rfl, ["sql_validation"], by simp, by simp⟩

/-- `agent_execute_query` behaves identically on two error-free states
agreeing on the generated SQL, validation result and prior results. -/
theorem agent_execute_query_congr (e : PassEnv) (db : String) (t1 t2 : BaseSQLState)
    (h1 : t1.error = none) (h2 : t2.error = none)
    (hg : t1.generated_sql = t2.generated_sql)
    (hv : t1.sql_validation_result = t2.sql_validation_result)
    (hq : t1.query_results = t2.query_results) :
    (agent_execute_query e db t1).error = (agent_execute_query e db t2).error ∧
    (agent_execute_query e db t1).generated_sql
      = (agent_execute_query e db t2).generated_sql ∧
    (agent_execute_query e db t1).query_results
      = (agent_execute_query e db t2).query_results ∧
    ∃ tr, (agent_execute_query e db t1).tools_executed = t1.tools_executed ++ tr ∧
          (agent_execute_query e db t2).tools_executed = t2.tools_executed ++ tr := by
  have hb1 : t1.error.isSome = false := by simp [h1]
  have hb2 : t2.error.isSome = false := by simp [h2]
  cases h2v : t2.sql_validation_result with
  | none =>
    have h1v : t1.sql_validation_result = none := by rw [hv, h2v]
    refine ⟨?_, ?_, ?_, [], ?_, ?_⟩ <;>
      simp [agent_execute_query, hb1, hb2, h1v, h2v, h1, h2, hg, hq]
  | some v =>
    have h1v : t1.sql_validation_result = some v := by rw [hv, h2v]
    by_cases hvv : (!v.valid) = true
    · refine ⟨?_, ?_, ?_, [], ?_, ?_⟩ <;>
        simp [agent_execute_query, hb1, hb2, h1v, h2v, hvv, h1, h2, hg, hq]
    · by_cases hsucc : (sqlExecutor_run e.run_sql (t2.generated_sql.getD "") db).success = true
      · refine ⟨?_, ?_, ?_, ["sql_execution"], ?_, ?_⟩ <;>
          simp [agent_execute_query, hb1, hb2, h1v, h2v, hvv, hg, hsucc, h1, h2]
      · refine ⟨?_, ?_, ?_, ["sql_execution"], ?_, ?_⟩ <;>
          simp [agent_execute_query, hb1, hb2, h1v, h2v, hvv, hg, hsucc, h1, h2, hq]

/-- `format_answer` behaves identically on two states agreeing on error and
query results, resets the retry counter, and leaves the generated SQL and
results in place. -/
theorem format_answer_congr (e : PassEnv) (t1 t2 : BaseSQLState)
    (he : t1.error = t2.error) (hq : t1.query_results = t2.query_results) :
    (format_answer e t1).error = (format_answer e t2).error ∧
    (format_answer e t1).final_answer = (format_answer e t2).final_answer ∧
    (format_answer e t1).generated_sql = t1.generated_sql ∧
    (format_answer e t2).generated_sql = t2.generated_sql ∧
    (format_answer e t1).query_results = t1.query_results ∧
    (format_answer e t2).query_results = t2.query_results ∧
    (format_answer e t1).retry_count = 0 ∧
    (format_answer e t2).retry_count = 0 ∧
    ∃ tr, (format_answer e t1).tools_executed = t1.tools_executed ++ tr ∧
          (format_answer e t2).tools_executed = t2.tools_executed ++ tr := by
  cases h2e : t2.error with
  | some msg =>
    have h1e : t1.error = some msg := by rw [he, h2e]
    refine ⟨?_, ?_, ?_, ?_, ?_, ?_, ?_, ?_, [], ?_, ?_⟩ <;>
      simp [format_answer, h1e, h2e]
  | none =>
    have h1e : t1.error = none := by rw [he, h2e]
    cases h2q : t2.query_results with
    | none =>
      have h1q : t1.query_results = none := by rw [hq, h2q]
      refine ⟨?_, ?_, ?_, ?_, ?_, ?_, ?_, ?_, [], ?_, ?_⟩ <;>
        simp [format_answer, h1e, h2e, h1q, h2q]
    | some r =>
      have h1q : t1.query_results = some r := by rw [hq, h2q]
      by_cases hres : r.results.getD "" = ""
      · refine ⟨?_, ?_, ?_, ?_, ?_, ?_, ?_, ?_, [], ?_, ?_⟩ <;>
          simp [format_answer, h1e, h2e, h1q, h2q, hres]
      · cases hllm : e.format_llm with
        | some answer =>
          refine ⟨?_, ?_, ?_, ?_, ?_, ?_, ?_, ?_, ["answer_formatting"], ?_, ?_⟩ <;>
            simp [format_answer, h1e, h2e, h1q, h2q, hres, hllm]
        | none =>
          refine ⟨?_, ?_, ?_, ?_, ?_, ?_, ?_, ?_, [], ?_, ?_⟩ <;>
            simp [format_answer, h1e, h2e, h1q, h2q, hres, hllm]

/-- One pipeline pass behaves identically on two states that agree on the
message history, the retry counter, and the error/SQL/validation/result
fields cleared by the retry branch — regardless of any stale selected
tables, retrieved columns, retrieval diagnostics or audit trail. -/
theorem pipelineOnce_congr (env : Nat → PassEnv) (db : String) (limit maxR : Nat)
    (hmax : 0 < maxR) (t1 t2 : BaseSQLState)
    (hm : t1.messages = t2.messages) (hmne : t1.messages ≠ [])
    (hrc : t1.retry_count = t2.retry_count)
    (h1 : t1.error = none) (h2 : t2.error = none)
    (hg : t1.generated_sql = t2.generated_sql)
    (hv : t1.sql_validation_result = t2.sql_validation_result)
    (hq : t1.query_results = t2.query_results) :
    (pipelineOnce env db limit maxR t1).error = (pipelineOnce env db limit maxR t2).error ∧
    (pipelineOnce env db limit maxR t1).generated_sql
      = (pipelineOnce env db limit maxR t2).generated_sql ∧
    (pipelineOnce env db limit maxR t1).sql_validation_result
      = (pipelineOnce env db limit maxR t2).sql_validation_result ∧
    (pipelineOnce env db limit maxR t1).query_results
      = (pipelineOnce env db limit maxR t2).query_results ∧
    ∃ tr, (pipelineOnce env db limit maxR t1).tools_executed = t1.tools_executed ++ tr ∧
          (pipelineOnce env db limit maxR t2).tools_executed = t2.tools_executed ++ tr := by
  simp only [pipelineOnce]
  rw [← hrc]
  obtain ⟨hAq, hAe, hAsel, trA, hAtr1, hAtr2⟩ :=
    select_tables_congr (env t1.retry_count) maxR hmax t1 t2 hm hmne h1 h2
  have hA1f := select_tables_frame (env t1.retry_count) maxR t1
  have hA2f := select_tables_frame (env t1.retry_count) maxR t2
  have hAg : (select_tables (env t1.retry_count) maxR t1).generated_sql
      = (select_tables (env t1.retry_count) maxR t2).generated_sql := by
    rw [hA1f.2.2.2.1, hA2f.2.2.2.1, hg]
  have hAv : (select_tables (env t1.retry_count) maxR t1).sql_validation_result
      = (select_tables (env t1.retry_count) maxR t2).sql_validation_result := by
    rw [hA1f.2.2.2.2.1, hA2f.2.2.2.2.1, hv]
  have hAq2 : (select_tables (env t1.retry_count) maxR t1).query_results
      = (select_tables (env t1.retry_count) maxR t2).query_results := by
    rw [hA1f.2.2.2.2.2.1, hA2f.2.2.2.2.2.1, hq]
  set e := env t1.retry_count
  set A1 := select_tables e maxR t1
  set A2 := select_tables e maxR t2
  by_cases hAerr : A1.error = none
  case neg =>
    have hA1s : A1.error.isSome = true := by
      cases hx : A1.error
      · exact absurd hx hAerr
      · rfl
    have hA2s : A2.error.isSome = true := by rw [← hAe]; exact hA1s
    rw [retrieve_columns_skip _ _ _ hA1s, generate_sql_skip _ _ _ _ hA1s,
      validate_sql_skip _ _ hA1s, agent_execute_query_skip _ _ _ hA1s,
      retrieve_columns_skip _ _ _ hA2s, generate_sql_skip _ _ _ _ hA2s,
      validate_sql_skip _ _ hA2s, agent_execute_query_skip _ _ _ hA2s]
    exact ⟨hAe, hAg, hAv, hAq2, trA, hAtr1, hAtr2⟩
  case pos =>
    have hA2e : A2.error = none := by rw [← hAe]; exact hAerr
    have hAselne : A1.selected_tables ≠ [] :=
      select_tables_error_none e maxR hmax t1 hmne h1 hAerr
    obtain ⟨hBe, hBcols, trB, hBtr1, hBtr2⟩ :=
      retrieve_columns_congr e db A1 A2 hAq (hAsel hAerr) hAselne hAerr hA2e
    have hB1f := retrieve_columns_frame e db A1
    have hB2f := retrieve_columns_frame e db A2
    have hBg : (retrieve_columns e db A1).generated_sql
        = (retrieve_columns e db A2).generated_sql := by
      rw [hB1f.2.2.2.2.1, hB2f.2.2.2.2.1, hAg]
    have hBv : (retrieve_columns e db A1).sql_validation_result
        = (retrieve_columns e db A2).sql_validation_result := by
      rw [hB1f.2.2.2.2.2.1, hB2f.2.2.2.2.2.1, hAv]
    have hBq : (retrieve_columns e db A1).query_results
        = (retrieve_columns e db A2).query_results := by
      rw [hB1f.2.2.2.2.2.2.1, hB2f.2.2.2.2.2.2.1, hAq2]
    set B1 := retrieve_columns e db A1
    set B2 := retrieve_columns e db A2
    by_cases hBerr : B1.error = none
    case neg =>
      have hB1s : B1.error.isSome = true := by
        cases hx : B1.error
        · exact absurd hx hBerr
        · rfl
      have hB2s : B2.error.isSome = true := by rw [← hBe]; exact hB1s
      rw [generate_sql_skip _ _ _ _ hB1s, validate_sql_skip _ _ hB1s,
        agent_execute_query_skip _ _ _ hB1s, generate_sql_skip _ _ _ _ hB2s,
        validate_sql_skip _ _ hB2s, agent_execute_query_skip _ _ _ hB2s]
      refine ⟨hBe, hBg, hBv, hBq, trA ++ trB, ?_, ?_⟩
      · rw [hBtr1, hAtr1, List.append_assoc]
      · rw [hBtr2, hAtr2, List.append_assoc]
    case pos =>
      have hB2e : B2.error = none := by rw [← hBe]; exact hBerr
      have hBcne : B1.retrieved_columns ≠ [] :=
        retrieve_columns_error_none e db A1 hAerr hAselne hBerr
      obtain ⟨hCe, hCg, trC, hCtr1, hCtr2⟩ :=
        generate_sql_congr e limit maxR B1 B2 hBerr hB2e (hBcols hBerr) hBcne hBg
      have hC1f := generate_sql_frame e limit maxR B1
      have hC2f := generate_sql_frame e limit maxR B2
      have hCv : (generate_sql e limit maxR B1).sql_validation_result
          = (generate_sql e limit maxR B2).sql_validation_result := by
        rw [hC1f.2.2.2.2.2.1, hC2f.2.2.2.2.2.1, hBv]
      have hCq : (generate_sql e limit maxR B1).query_results
          = (generate_sql e limit maxR B2).query_results := by
        rw [hC1f.2.2.2.2.2.2.1, hC2f.2.2.2.2.2.2.1, hBq]
      set C1 := generate_sql e limit maxR B1
      set C2 := generate_sql e limit maxR B2
      by_cases hCerr : C1.error = none
      case neg =>
        have hC1s : C1.error.isSome = true := by
          cases hx : C1.error
          · exact absurd hx hCerr
          · rfl
        have hC2s : C2.error.isSome = true := by rw [← hCe]; exact hC1s
        rw [validate_sql_skip _ _ hC1s, agent_execute_query_skip _ _ _ hC1s,
          validate_sql_skip _ _ hC2s, agent_execute_query_skip _ _ _ hC2s]
        refine ⟨hCe, hCg, hCv, hCq, trA ++ trB ++ trC, ?_, ?_⟩
        · rw [hCtr1, hBtr1, hAtr1]; simp [List.append_assoc]
        · rw [hCtr2, hBtr2, hAtr2]; simp [List.append_assoc]
      case pos =>
        have hC2e : C2.error = none := by rw [← hCe]; exact hCerr
        obtain ⟨hDe, hDg, hDv, trD, hDtr1, hDtr2⟩ :=
          validate_sql_congr e C1 C2 hCerr hC2e hCg hCv
        have hD1f := validate_sql_frame e C1
        have hD2f := validate_sql_frame e C2
        have hDq : (validate_sql e C1).query_results
            = (validate_sql e C2).query_results := by
          rw [hD1f.2.2.2.2.2.2.1, hD2f.2.2.2.2.2.2.1, hCq]
        set D1 := validate_sql e C1
        set D2 := validate_sql e C2
        by_cases hDerr : D1.error = none
        case neg =>
          have hD1s : D1.error.isSome = true := by
            cases hx : D1.error
            · exact absurd hx hDerr
            · rfl
          have hD2s : D2.error.isSome = true := by rw [← hDe]; exact hD1s
          rw [agent_execute_query_skip _ _ _ hD1s, agent_execute_query_skip _ _ _ hD2s]
          refine ⟨hDe, hDg, hDv, hDq, trA ++ trB ++ trC ++ trD, ?_, ?_⟩
          · rw [hDtr1, hCtr1, hBtr1, hAtr1]; simp [List.append_assoc]
          · rw [hDtr2, hCtr2, hBtr2, hAtr2]; simp [List.append_assoc]
        case pos =>
          have hD2e : D2.error = none := by rw [← hDe]; exact hDerr
          obtain ⟨hEe, hEg, hEq, trE, hEtr1, hEtr2⟩ :=
            agent_execute_query_congr e db D1 D2 hDerr hD2e hDg hDv hDq
          have hE1f := agent_execute_query_frame e db D1
          have hE2f := agent_execute_query_frame e db D2
          have hEv : (agent_execute_query e db D1).sql_validation_result
              = (agent_execute_query e db D2).sql_validation_result := by
            rw [hE1f.2.2.2.2.2.2.1, hE2f.2.2.2.2.2.2.1, hDv]
          refine ⟨hEe, hEg, hEv, hEq, trA ++ trB ++ trC ++ trD ++ trE, ?_, ?_⟩
          · rw [hEtr1, hDtr1, hCtr1, hBtr1, hAtr1]; simp [List.append_assoc]
          · rw [hEtr2, hDtr2, hCtr2, hBtr2, hAtr2]; simp [List.append_assoc]

/-- The whole remaining run behaves identically from two states that agree
on the message history, retry counter, and the cleared fields — the stale
selected tables, retrieved columns, retrieval diagnostics and audit trail of
a failed attempt never influence it. -/
theorem runLoop_congr (env : Nat → PassEnv) (db : String) (limit maxR : Nat)
    (hmax : 0 < maxR) :
    ∀ (n : Nat) (t1 t2 : BaseSQLState), maxR - t1.retry_count ≤ n →
      t1.messages = t2.messages → t1.messages ≠ [] →
      t1.retry_count = t2.retry_count →
      t1.error = none → t2.error = none →
      t1.generated_sql = t2.generated_sql →
      t1.sql_validation_result = t2.sql_validation_result →
      t1.query_results = t2.query_results →
      (runLoop env db limit maxR t1).1.error = (runLoop env db limit maxR t2).1.error ∧
      (runLoop env db limit maxR t1).1.final_answer
        = (runLoop env db limit maxR t2).1.final_answer ∧
      (runLoop env db limit maxR t1).1.generated_sql
        = (runLoop env db limit maxR t2).1.generated_sql ∧
      (runLoop env db limit maxR t1).1.query_results
        = (runLoop env db limit maxR t2).1.query_results ∧
      (runLoop env db limit maxR t1).1.retry_count
        = (runLoop env db limit maxR t2).1.retry_count ∧
      (runLoop env db limit maxR t1).2 = (runLoop env db limit maxR t2).2 ∧
      ∃ tr, (runLoop env db limit maxR t1).1.tools_executed = t1.tools_executed ++ tr ∧
            (runLoop env db limit maxR t2).1.tools_executed = t2.tools_executed ++ tr := by
  have hcont : ∀ s : BaseSQLState, (s.error = none ∨ maxR ≤ s.retry_count) →
      should_retry maxR s = ("continue", s) := by
    intro s hs
    rcases hs with hs | hs
    · exact should_retry_continue_none maxR s hs
    · by_cases he : s.error = none
      · exact should_retry_continue_none maxR s he
      · refine should_retry_continue_exhausted maxR s ?_ hs
        cases hx : s.error
        · exact absurd hx he
        · rfl
  have hncr : ∀ u : BaseSQLState, ¬ (("continue", u) : String × BaseSQLState).1 = "retry" :=
    fun u hc => (by decide : ¬ ("continue" : String) = "retry") hc
  intro n
  induction n with
  | zero =>
    intro t1 t2 hle hm hmne hrc h1 h2 hg hv hq
    obtain ⟨hPe, hPg, hPv, hPq, trP, hPtr1, hPtr2⟩ :=
      pipelineOnce_congr env db limit maxR hmax t1 t2 hm hmne hrc h1 h2 hg hv hq
    have hP1f := pipelineOnce_frame env db limit maxR t1
    have hP2f := pipelineOnce_frame env db limit maxR t2
    have hrcP : (pipelineOnce env db limit maxR t1).retry_count
        = (pipelineOnce env db limit maxR t2).retry_count := by
      rw [hP1f.2, hP2f.2, hrc]
    have hge1 : maxR ≤ (pipelineOnce env db limit maxR t1).retry_count := by
      rw [hP1f.2]; omega
    have hge2 : maxR ≤ (pipelineOnce env db limit maxR t2).retry_count := by
      rw [← hrcP]; exact hge1
    have hsr1 := hcont _ (Or.inr hge1)
    have hsr2 := hcont _ (Or.inr hge2)
    have hru1 : runLoop env db limit maxR t1
        = (format_answer (env (pipelineOnce env db limit maxR t1).retry_count)
            (pipelineOnce env db limit maxR t1), 0) := by
      rw [runLoop, hsr1, dif_neg (hncr _)]
    have hru2 : runLoop env db limit maxR t2
        = (format_answer (env (pipelineOnce env db limit maxR t2).retry_count)
            (pipelineOnce env db limit maxR t2), 0) := by
      rw [runLoop, hsr2, dif_neg (hncr _)]
    rw [hru1, hru2]
    obtain ⟨hFe, hFa, hFg1, hFg2, hFq1, hFq2, hFr1, hFr2, trF, hFtr1, hFtr2⟩ :=
      format_answer_congr (env (pipelineOnce env db limit maxR t1).retry_count)
        (pipelineOnce env db limit maxR t1) (pipelineOnce env db limit maxR t2) hPe hPq
    rw [← hrcP]
    refine ⟨hFe, hFa, ?_, ?_, by rw [hFr1, hFr2], rfl, trP ++ trF, ?_, ?_⟩
    · rw [hFg1, hFg2, hPg]
    · rw [hFq1, hFq2, hPq]
    · show (format_answer _ _).tools_executed = t1.tools_executed ++ (trP ++ trF)
      rw [hFtr1, hPtr1, List.append_assoc]
    · show (format_answer _ _).tools_executed = t2.tools_executed ++ (trP ++ trF)
      rw [hFtr2, hPtr2, List.append_assoc]
  | succ n ih =>
    intro t1 t2 hle hm hmne hrc h1 h2 hg hv hq
    obtain ⟨hPe, hPg, hPv, hPq, trP, hPtr1, hPtr2⟩ :=
      pipelineOnce_congr env db limit maxR hmax t1 t2 hm hmne hrc h1 h2 hg hv hq
    have hP1f := pipelineOnce_frame env db limit maxR t1
    have hP2f := pipelineOnce_frame env db limit maxR t2
    have hrcP : (pipelineOnce env db limit maxR t1).retry_count
        = (pipelineOnce env db limit maxR t2).retry_count := by
      rw [hP1f.2, hP2f.2, hrc]
    by_cases hr : (pipelineOnce env db limit maxR t1).error = none
      ∨ maxR ≤ (pipelineOnce env db limit maxR t1).retry_count
    · have hr2 : (pipelineOnce env db limit maxR t2).error = none
          ∨ maxR ≤ (pipelineOnce env db limit maxR t2).retry_count := by
        rcases hr with hr | hr
        · exact Or.inl (by rw [← hPe]; exact hr)
        · exact Or.inr (by rw [← hrcP]; exact hr)
      have hsr1 := hcont _ hr
      have hsr2 := hcont _ hr2
      have hru1 : runLoop env db limit maxR t1
          = (format_answer (env (pipelineOnce env db limit maxR t1).retry_count)
              (pipelineOnce env db limit maxR t1), 0) := by
        rw [runLoop, hsr1, dif_neg (hncr _)]
      have hru2 : runLoop env db limit maxR t2
          = (format_answer (env (pipelineOnce env db limit maxR t2).retry_count)
              (pipelineOnce env db limit maxR t2), 0) := by
        rw [runLoop, hsr2, dif_neg (hncr _)]
      rw [hru1, hru2]
      obtain ⟨hFe, hFa, hFg1, hFg2, hFq1, hFq2, hFr1, hFr2, trF, hFtr1, hFtr2⟩ :=
        format_answer_congr (env (pipelineOnce env db limit maxR t1).retry_count)
          (pipelineOnce env db limit maxR t1) (pipelineOnce env db limit maxR t2) hPe hPq
      rw [← hrcP]
      refine ⟨hFe, hFa, ?_, ?_, by rw [hFr1, hFr2], rfl, trP ++ trF, ?_, ?_⟩
      · rw [hFg1, hFg2, hPg]
      · rw [hFq1, hFq2, hPq]
      · show (format_answer _ _).tools_executed = t1.tools_executed ++ (trP ++ trF)
        rw [hFtr1, hPtr1, List.append_assoc]
      · show (format_answer _ _).tools_executed = t2.tools_executed ++ (trP ++ trF)
        rw [hFtr2, hPtr2, List.append_assoc]
    · push_neg at hr
      obtain ⟨hrs, hrlt⟩ := hr
      have hP1s : (pipelineOnce env db limit maxR t1).error.isSome = true := by
        cases hx : (pipelineOnce env db limit maxR t1).error
        · exact absurd hx hrs
        · rfl
      have hP2s : (pipelineOnce env db limit maxR t2).error.isSome = true := by
        rw [← hPe]; exact hP1s
      have hrlt2 : (pipelineOnce env db limit maxR t2).retry_count < maxR := by
        rw [← hrcP]; exact hrlt
      have hsr1 := should_retry_retry_eq maxR _ hP1s hrlt
      have hsr2 := should_retry_retry_eq maxR _ hP2s hrlt2
      have hru1 : runLoop env db limit maxR t1
          = ((runLoop env db limit maxR ({ pipelineOnce env db limit maxR t1 with
                retry_count := (pipelineOnce env db limit maxR t1).retry_count + 1,
                error := none, generated_sql := none, sql_validation_result := none,
                query_results := none } : BaseSQLState)).1,
             (runLoop env db limit maxR ({ pipelineOnce env db limit maxR t1 with
                retry_count := (pipelineOnce env db limit maxR t1).retry_count + 1,
                error := none, generated_sql := none, sql_validation_result := none,
                query_results := none } : BaseSQLState)).2 + 1) := by
        rw [runLoop, hsr1, dif_pos rfl]
      have hru2 : runLoop env db limit maxR t2
          = ((runLoop env db limit maxR ({ pipelineOnce env db limit maxR t2 with
                retry_count := (pipelineOnce env db limit maxR t2).retry_count + 1,
                error := none, generated_sql := none, sql_validation_result := none,
                query_results := none } : BaseSQLState)).1,
             (runLoop env db limit maxR ({ pipelineOnce env db limit maxR t2 with
                retry_count := (pipelineOnce env db limit maxR t2).retry_count + 1,
                error := none, generated_sql := none, sql_validation_result := none,
                query_results := none } : BaseSQLState)).2 + 1) := by
        rw [runLoop, hsr2, dif_pos rfl]
      rw [hru1, hru2]
      have hihm : ({ pipelineOnce env db limit maxR t1 with
          retry_count := (pipelineOnce env db limit maxR t1).retry_count + 1, error := none,
          generated_sql := none, sql_validation_result := none,
          query_results := none } : BaseSQLState).messages
          = ({ pipelineOnce env db limit maxR t2 with
          retry_count := (pipelineOnce env db limit maxR t2).retry_count + 1, error := none,
          generated_sql := none, sql_validation_result := none,
          query_results := none } : BaseSQLState).messages := by
        show (pipelineOnce env db limit maxR t1).messages
          = (pipelineOnce env db limit maxR t2).messages
        rw [hP1f.1, hP2f.1, hm]
      obtain ⟨ie, ia, ig, iq, irc, icnt, trR, itr1, itr2⟩ := ih _ _
        (by show maxR - ((pipelineOnce env db limit maxR t1).retry_count + 1) ≤ n
            rw [hP1f.2]
            omega)
        hihm
        (by show (pipelineOnce env db limit maxR t1).messages ≠ []
            rw [hP1f.1]; exact hmne)
        (by show (pipelineOnce env db limit maxR t1).retry_count + 1
              = (pipelineOnce env db limit maxR t2).retry_count + 1
            rw [hrcP])
        rfl rfl rfl rfl rfl
      refine ⟨ie, ia, ig, iq, irc, by rw [icnt], trP ++ trR, ?_, ?_⟩
      · rw [itr1]
        show (pipelineOnce env db limit maxR t1).tools_executed ++ trR
          = t1.tools_executed ++ (trP ++ trR)
        rw [hPtr1, List.append_assoc]
      · rw [itr2]
        show (pipelineOnce env db limit maxR t2).tools_executed ++ trR
          = t2.tools_executed ++ (trP ++ trR)
        rw [hPtr2, List.append_assoc]

/-- C9: the retry branch of `should_retry` increments `retry_count` and
clears exactly the `error`, `generated_sql`, `sql_validation_result` and
`query_results` fields — the structure-update equality certifies that every
other field is carried verbatim — and the graph's `retry` edge re-enters at
`select_tables` (the first node of `pipelineOnce` inside `runLoop`). The
retried continuation's observable behaviour — error, final answer, generated
SQL, query results, retry counter, number of further retries, and the
audit-trail segment it appends — is identical for any two failed states
agreeing only on the message history and the retry counter, so no partial
state of the failed attempt (selected tables, retrieved columns, retrieval
diagnostics, audit trail) other than the retry counter is reused by the
retried pipeline. -/
theorem retry_branch_frame_and_noninterference (env : Nat → PassEnv) (db : String)
    (limit maxR : Nat) (hmax : 0 < maxR) (s1 s2 : BaseSQLState)
    (hmne : s1.messages ≠ []) (hm : s1.messages = s2.messages)
    (hrc : s1.retry_count = s2.retry_count)
    (he1 : s1.error.isSome = true) (he2 : s2.error.isSome = true)
    (hlt : s1.retry_count < maxR) :
    should_retry maxR s1 = ("retry",
      { s1 with
        retry_count := s1.retry_count + 1, error := none, generated_sql := none,
        sql_validation_result := none, query_results := none }) ∧
    ((runLoop env db limit maxR (should_retry maxR s1).2).1.error
        = (runLoop env db limit maxR (should_retry maxR s2).2).1.error ∧
      (runLoop env db limit maxR (should_retry maxR s1).2).1.final_answer
        = (runLoop env db limit maxR (should_retry maxR s2).2).1.final_answer ∧
      (runLoop env db limit maxR (should_retry maxR s1).2).1.generated_sql
        = (runLoop env db limit maxR (should_retry maxR s2).2).1.generated_sql ∧
      (runLoop env db limit maxR (should_retry maxR s1).2).1.query_results
        = (runLoop env db limit maxR (should_retry maxR s2).2).1.query_results ∧
      (runLoop env db limit maxR (should_retry maxR s1).2).1.retry_count
        = (runLoop env db limit maxR (should_retry maxR s2).2).1.retry_count ∧
      (runLoop env db limit maxR (should_retry maxR s1).2).2
        = (runLoop env db limit maxR (should_retry maxR s2).2).2) ∧
    ∃ tr, (runLoop env db limit maxR (should_retry maxR s1).2).1.tools_executed
        = s1.tools_executed ++ tr ∧
      (runLoop env db limit maxR (should_retry maxR s2).2).1.tools_executed
        = s2.tools_executed ++ tr := by
  have hsr1 := should_retry_retry_eq maxR s1 he1 hlt
  have hsr2 := should_retry_retry_eq maxR s2 he2 (by rw [← hrc]; exact hlt)
  refine ⟨hsr1, ?_⟩
  rw [hsr1, hsr2]
  have h := runLoop_congr env db limit maxR hmax maxR
    ({ s1 with
      retry_count := s1.retry_count + 1, error := none, generated_sql := none,
      sql_validation_result := none, query_results := none } : BaseSQLState)
    ({ s2 with
      retry_count := s2.retry_count + 1, error := none, generated_sql := none,
      sql_validation_result := none, query_results := none } : BaseSQLState)
    (by show maxR - (s1.retry_count + 1) ≤ maxR; omega)
    hm hmne
    (by show s1.retry_count + 1 = s2.retry_count + 1; rw [hrc])
    rfl rfl rfl rfl rfl
  exact ⟨⟨h.1, h.2.1, h.2.2.1, h.2.2.2.1, h.2.2.2.2.1, h.2.2.2.2.2.1⟩, h.2.2.2.2.2.2⟩

/-- Witness for C9: two failed attempts sharing only the history and retry
counter — one carrying stale selected tables and a stale audit trail — whose
retried continuations behave identically. -/
theorem retry_branch_frame_and_noninterference_witness :
    (should_retry 3 ({
        messages := ["how many households own a house"],
        selected_tables := ["stale_table"], tools_executed := ["table_selection"],
        error := some "Query execution failed (TIMEOUT): boom",
        retry_count := 1 } : BaseSQLState)
      = ("retry", {
          messages := ["how many households own a house"],
          selected_tables := ["stale_table"], tools_executed := ["table_selection"],
          error := none, retry_count := 2 })) ∧
    (runLoop failingEnv "enaho" 500 3
        (should_retry 3 ({
          messages := ["how many households own a house"],
          selected_tables := ["stale_table"], tools_executed := ["table_selection"],
          error := some "Query execution failed (TIMEOUT): boom",
          retry_count := 1 } : BaseSQLState)).2).1.final_answer
      = (runLoop failingEnv "enaho" 500 3
        (should_retry 3 ({
          messages := ["how many households own a house"],
          error := some "other failure", retry_count := 1 } : BaseSQLState)).2).1.final_answer := by
  have h := retry_branch_frame_and_noninterference failingEnv "enaho" 500 3 (by decide)
    ({
      messages := ["how many households own a house"],
      selected_tables := ["stale_table"], tools_executed := ["table_selection"],
      error := some "Query execution failed (TIMEOUT): boom",
      retry_count := 1 } : BaseSQLState)
    ({
      messages := ["how many households own a house"],
      error := some "other failure", retry_count := 1 } : BaseSQLState)
    (by decide) rfl rfl rfl rfl (by decide)
  exact ⟨h.1, h.2.1.2.1⟩

end Esma
